import Mathlib

/-!
# HVAC actuation bridge: CAN frame encoder, LED colour mapper, signal dispatcher

A shallow embedding of `HvacCanHelper`, `HvacLedHelper`, the `set` calls of
`KuksaClient` and the dispatcher `HvacService::HandleSignalChange`.

Conventions of the embedding:

* `uint8_t` values are `Nat` (below 256), `int` values are `Int`; a conversion
  to `uint8_t` is written `toUInt8`, a conversion from `uint32_t` to `int`
  is written `uint32ToInt`.
* Member functions take the object as their first argument and return the new
  object together with the list of externally visible effects, in the order
  in which the code performs them.
* The result of each system call (`sendto`, opening an LED brightness file)
  is an input of the embedding, collected in `IoEnv`.
-/

namespace Hvac

/-! ## Machine integers -/

/-- Conversion of an `int` to `uint8_t`: reduction modulo 256. -/
def toUInt8 (x : Int) : Nat := (x % 256).toNat

/-- Conversion of a `uint32_t` to `int` (32 bit, two's complement): values
from `2^31` on become negative. -/
def uint32ToInt (u : Nat) : Int :=
  if u % 2 ^ 32 < 2 ^ 31 then ((u % 2 ^ 32 : Nat) : Int) else ((u % 2 ^ 32 : Nat) : Int) - 2 ^ 32

/-! ## IEEE 754 binary64 arithmetic

`set_fan_speed` computes in `double`. The operations it uses are embedded
exactly: each one forms the exact rational result `p / q` and rounds it to
the nearest binary64 number, ties to even (the default rounding mode).
Only finite non-negative values occur (the operands come from a `uint8_t`
and from positive constants), so sign, infinities and NaN are not modelled. -/

/-- A finite non-negative `double`, the number `m * 2 ^ e`. -/
structure Double where
  m : Nat
  e : Int
deriving DecidableEq, Repr

namespace Double

/-- Auxiliary function of `ilog2`, recursive on its fuel. -/
def ilog2Aux : Nat → Nat → Nat
  | 0, _ => 0
  | fuel + 1, n => if 2 ≤ n then ilog2Aux fuel (n / 2) + 1 else 0

/-- The integer binary logarithm: the number of halvings that bring `n`
below 2. Fuel `n` is never used up. -/
def ilog2 (n : Nat) : Nat := ilog2Aux n n

/-- Numerator of the value of `d` as a fraction. -/
def num (d : Double) : Nat := d.m * 2 ^ d.e.toNat

/-- Denominator of the value of `d` as a fraction. -/
def den (d : Double) : Nat := 2 ^ (-d.e).toNat

/-- Round the non-negative rational `p / q` (`q > 0`) to binary64: the
exponent `e` is chosen so that the significand `p / (q * 2 ^ e)` lies in
`[2^52, 2^53)` (53 significant bits), not below the subnormal exponent
`-1074`; the significand is rounded to the nearest integer, ties to even. -/
def round (p q : Nat) : Double :=
  if p = 0 then ⟨0, 0⟩ else
    let e0 : Int := (ilog2 p : Int) - (ilog2 q : Int) - 52
    let e1 : Int := if p * 2 ^ (-e0).toNat < 2 ^ 52 * (q * 2 ^ e0.toNat) then e0 - 1 else e0
    let e : Int := max e1 (-1074)
    let n := p * 2 ^ (-e).toNat
    let d := q * 2 ^ e.toNat
    let qt := n / d
    let r := n % d
    let m := if 2 * r < d then qt else if d < 2 * r then qt + 1 else if qt % 2 = 0 then qt else qt + 1
    ⟨m, e⟩

/-- Conversion of a non-negative integer to `double`. -/
def ofNat (n : Nat) : Double := round n 1

/-- Product of two doubles, correctly rounded. -/
def mul (a b : Double) : Double := round (a.num * b.num) (a.den * b.den)

/-- Quotient of two doubles (`b` not zero), correctly rounded. -/
def div (a b : Double) : Double := round (a.num * b.den) (a.den * b.num)

/-- Sum of two doubles, correctly rounded. -/
def add (a b : Double) : Double := round (a.num * b.den + b.num * a.den) (a.den * b.den)

/-- Conversion of a non-negative double to an integer: the fractional part is
discarded. -/
def trunc (a : Double) : Nat := a.num / a.den

end Double

/-! ## HvacCanHelper -/

/-- The part of `struct can_frame` that `can_update` fills in. -/
structure can_frame where
  can_id : Nat
  can_dlc : Nat
  data : List Nat
deriving DecidableEq, Repr

/-- The members of `HvacCanHelper` that the setters and `can_update` read or
write. The socket itself is represented by `m_active` and by the `sendto`
outcome passed to `can_update`. -/
structure HvacCanHelper where
  m_active : Bool
  m_temp_left : Nat
  m_temp_right : Nat
  m_fan_speed : Nat
deriving DecidableEq, Repr

namespace HvacCanHelper

/-- `HvacCanHelper::convert_temp` (HvacCanHelper.h): `value` is promoted to
`int`, the slope `(0xF0 - 0x10) / 15` is an integer division (`Int.tdiv`, the
truncating division of C), and the clamped result is converted back to
`uint8_t`. -/
def convert_temp (value : Nat) : Nat :=
  let result : Int := (Int.tdiv (0xF0 - 0x10) 15) * ((value : Int) - 15) + 0x10
  let result : Int := if result < 0x10 then 0x10 else result
  let result : Int := if result > 0xF0 then 0xF0 else result
  toUInt8 result

/-- The frame that `can_update` assembles from the stored members. -/
def build_frame (h : HvacCanHelper) : can_frame :=
  { can_id := 0x30
    can_dlc := 8
    data :=
      [ convert_temp h.m_temp_left,
        convert_temp h.m_temp_right,
        convert_temp (toUInt8 (((h.m_temp_left : Int) + (h.m_temp_right : Int)) >>> (1 : Nat))),
        0xF0,
        h.m_fan_speed,
        1,
        0,
        0 ] }

/-- `HvacCanHelper::can_update`: nothing happens on an inactive channel;
otherwise the frame is handed to `sendto` (the returned list holds the frames
handed over), and a failed `sendto` (`send_ok = false`) marks the channel
inactive. -/
def can_update (h : HvacCanHelper) (send_ok : Bool) : HvacCanHelper × List can_frame :=
  if !h.m_active then
    (h, [])
  else
    let frame := build_frame h
    if send_ok then (h, [frame]) else ({ h with m_active := false }, [frame])

/-- `HvacCanHelper::set_left_temperature`. -/
def set_left_temperature (h : HvacCanHelper) (temp : Nat) (send_ok : Bool) :
    HvacCanHelper × List can_frame :=
  can_update { h with m_temp_left := temp } send_ok

/-- `HvacCanHelper::set_right_temperature`. -/
def set_right_temperature (h : HvacCanHelper) (temp : Nat) (send_ok : Bool) :
    HvacCanHelper × List can_frame :=
  can_update { h with m_temp_right := temp } send_ok

/-- The value that `set_fan_speed` stores in `m_fan_speed`:
`speed * 255.0 / 100.0` and `value + 0.5` are computed in `double`, the sum
is truncated to `uint8_t`. For `speed` up to 100 the sum is below 256; the
conversion of a larger sum (not defined by the language) is taken modulo
256. -/
def scaled_fan_speed (speed : Nat) : Nat :=
  let value : Double :=
    Double.div (Double.mul (Double.ofNat speed) (Double.ofNat 255)) (Double.ofNat 100)
  toUInt8 (Double.trunc (Double.add value (Double.round 1 2)))

/-- `HvacCanHelper::set_fan_speed`. -/
def set_fan_speed (h : HvacCanHelper) (speed : Nat) (send_ok : Bool) :
    HvacCanHelper × List can_frame :=
  can_update { h with m_fan_speed := scaled_fan_speed speed } send_ok

/-- The frame of section 4.3 of the specification for a left temperature, a
right temperature and a hardware-scaled fan byte. -/
def spec_frame (left right fan : Nat) : can_frame :=
  { can_id := 0x30
    can_dlc := 8
    data :=
      [ convert_temp left, convert_temp right, convert_temp ((left + right) >>> 1),
        0xF0, fan, 1, 0, 0 ] }

/-- The members after the constructor of `HvacCanHelper`; `active` tells
whether `can_open` succeeded. -/
def init (active : Bool) : HvacCanHelper :=
  { m_active := active, m_temp_left := 21, m_temp_right := 21, m_fan_speed := 0 }

end HvacCanHelper

/-! ## HvacLedHelper -/

/-- One row of the table `degree_colours`: a temperature and its `rgb[3]`. -/
structure degree_colour where
  temperature : Int
  rgb : Int × Int × Int
deriving DecidableEq, Repr

/-- The table `degree_colours` of HvacLedHelper.cpp (RGB temperature
mapping). -/
def degree_colours : List degree_colour :=
  [ ⟨15, (0, 0, 229)⟩,
    ⟨16, (22, 0, 204)⟩,
    ⟨17, (34, 0, 189)⟩,
    ⟨18, (46, 0, 175)⟩,
    ⟨19, (58, 0, 186)⟩,
    ⟨20, (70, 0, 146)⟩,
    ⟨21, (82, 0, 131)⟩,
    ⟨22, (104, 0, 116)⟩,
    ⟨23, (116, 0, 102)⟩,
    ⟨24, (128, 0, 87)⟩,
    ⟨25, (140, 0, 73)⟩,
    ⟨26, (152, 0, 58)⟩,
    ⟨27, (164, 0, 43)⟩,
    ⟨28, (176, 0, 29)⟩,
    ⟨29, (188, 0, 14)⟩,
    ⟨30, (201, 0, 5)⟩ ]

/-- The three brightness files written by `led_update`. -/
inductive LedChannel where
  | red
  | green
  | blue
deriving DecidableEq, Repr

/-- Whether each brightness file can be opened during one call of
`led_update` (`is_open()` after `open`). -/
structure LedEnv where
  red_open : Bool
  green_open : Bool
  blue_open : Bool
deriving DecidableEq, Repr

/-- The members of `HvacLedHelper` that the setters and `led_update` read or
write. -/
structure HvacLedHelper where
  m_config_valid : Bool
  m_temp_left : Nat
  m_temp_right : Nat
deriving DecidableEq, Repr

namespace HvacLedHelper

/-- The table index `led_update` computes from a stored temperature:
`temp - 15` as an `int`, limited to `0..15`. -/
def led_index (temp : Nat) : Int :=
  let t : Int := (temp : Int) - 15
  if t < 0 then 0 else if t > 15 then 15 else t

/-- The array access `degree_colours[i].rgb`; an index outside the table has
no row (the default triple stands for it and is never used, see
`led_index_in_table`). -/
def rgb_at (i : Int) : Int × Int × Int :=
  if i < 0 then (0, 0, 0) else (degree_colours.getD i.toNat ⟨0, (0, 0, 0)⟩).rgb

/-- The values `red_value`, `green_value`, `blue_value` of `led_update`;
`/ 2` is the truncating division of C. -/
def led_values (h : HvacLedHelper) : Int × Int × Int :=
  let temp_left := led_index h.m_temp_left
  let temp_right := led_index h.m_temp_right
  ( Int.tdiv ((rgb_at temp_left).1 + (rgb_at temp_right).1) 2,
    Int.tdiv ((rgb_at temp_left).2.1 + (rgb_at temp_right).2.1) 2,
    Int.tdiv ((rgb_at temp_left).2.2 + (rgb_at temp_right).2.2) 2 )

/-- `HvacLedHelper::led_update`: nothing happens when the configuration is
not valid; otherwise red, green and blue are written in this order (the
returned list holds the values written, each as the decimal text of the given
integer), and the first file that cannot be opened clears `m_config_valid`
and ends the function. -/
def led_update (h : HvacLedHelper) (io : LedEnv) : HvacLedHelper × List (LedChannel × Int) :=
  if !h.m_config_valid then
    (h, [])
  else
    let v := led_values h
    if !io.red_open then
      ({ h with m_config_valid := false }, [])
    else if !io.green_open then
      ({ h with m_config_valid := false }, [(LedChannel.red, v.1)])
    else if !io.blue_open then
      ({ h with m_config_valid := false }, [(LedChannel.red, v.1), (LedChannel.green, v.2.1)])
    else
      (h, [(LedChannel.red, v.1), (LedChannel.green, v.2.1), (LedChannel.blue, v.2.2)])

/-- `HvacLedHelper::set_left_temperature`. -/
def set_left_temperature (h : HvacLedHelper) (temp : Nat) (io : LedEnv) :
    HvacLedHelper × List (LedChannel × Int) :=
  led_update { h with m_temp_left := temp } io

/-- `HvacLedHelper::set_right_temperature`. -/
def set_right_temperature (h : HvacLedHelper) (temp : Nat) (io : LedEnv) :
    HvacLedHelper × List (LedChannel × Int) :=
  led_update { h with m_temp_right := temp } io

/-- The members after the constructor of `HvacLedHelper`; `valid` is the
outcome of `read_config`. -/
def init (valid : Bool) : HvacLedHelper :=
  { m_config_valid := valid, m_temp_left := 21, m_temp_right := 21 }

end HvacLedHelper

/-! ## KuksaClient: the `set` calls -/

/-- Modelled from the spec: the `Datapoint` message of the broker protocol
(generated from `kuksa/val/v1/types.proto`, which is not part of the
sources), "a tagged union of value kinds (bool, signed/unsigned integers of
several widths, float, double, string)" of which at most one is populated.
The float and double payloads are kept as their bit patterns; `kArray`
stands for the array kinds. -/
inductive Datapoint where
  | VALUE_NOT_SET
  | kString (v : String)
  | kBool (v : Bool)
  | kInt32 (v : Int)
  | kInt64 (v : Int)
  | kUint32 (v : Nat)
  | kUint64 (v : Nat)
  | kFloat (bits : Nat)
  | kDouble (bits : Nat)
  | kArray (kind : Nat)
deriving DecidableEq, Repr

namespace Datapoint

/-- `Datapoint::has_int32`. -/
def has_int32 : Datapoint → Bool
  | kInt32 _ => true
  | _ => false

/-- `Datapoint::int32`: the value, 0 when another kind is populated. -/
def int32 : Datapoint → Int
  | kInt32 v => v
  | _ => 0

/-- `Datapoint::has_uint32`. -/
def has_uint32 : Datapoint → Bool
  | kUint32 _ => true
  | _ => false

/-- `Datapoint::uint32`: the value, 0 when another kind is populated. -/
def uint32 : Datapoint → Nat
  | kUint32 v => v
  | _ => 0

/-- `Datapoint::has_bool_`. -/
def has_bool_ : Datapoint → Bool
  | kBool _ => true
  | _ => false

/-- `Datapoint::bool_`: the value, false when another kind is populated. -/
def bool_ : Datapoint → Bool
  | kBool v => v
  | _ => false

end Datapoint

/-- Modelled from the spec: the field kinds of the broker protocol used by
the sources ("current value" against "actuator target"). -/
inductive Field where
  | FIELD_PATH
  | FIELD_VALUE
  | FIELD_ACTUATOR_TARGET
deriving DecidableEq, Repr

/-- Modelled from the spec: the `DataEntry` message, a path with an optional
current value and an optional actuator target. -/
structure DataEntry where
  path : String
  value : Option Datapoint
  actuator_target : Option Datapoint
deriving DecidableEq, Repr

/-- Modelled from the spec: the `EntryUpdate` message, an optional entry and
the list of fields it updates. -/
structure EntryUpdate where
  entry : Option DataEntry
  fields : List Field
deriving DecidableEq, Repr

/-- Modelled from the spec: the `SetRequest` message, a list of updates. -/
structure SetRequest where
  updates : List EntryUpdate
deriving DecidableEq, Repr

namespace KuksaClient

/-- The request that `KuksaClient::set(path, dp, cb, actuator)` builds and
passes to the `Set` call of the stub: one update whose entry has the path and
carries `dp` as actuator target or as value. -/
def set (path : String) (dp : Datapoint) (actuator : Bool) : SetRequest :=
  if actuator then
    { updates :=
        [ { entry := some { path := path, value := none, actuator_target := some dp }
            fields := [Field.FIELD_ACTUATOR_TARGET] } ] }
  else
    { updates :=
        [ { entry := some { path := path, value := some dp, actuator_target := none }
            fields := [Field.FIELD_VALUE] } ] }

/-- The overload `KuksaClient::set(path, const bool value, cb, actuator)`. -/
def set_bool (path : String) (value : Bool) (actuator : Bool) : SetRequest :=
  set path (Datapoint.kBool value) actuator

/-- The overload `KuksaClient::set(path, const int32_t value, cb, actuator)`. -/
def set_int32 (path : String) (value : Int) (actuator : Bool) : SetRequest :=
  set path (Datapoint.kInt32 value) actuator

/-- The overload `KuksaClient::set(path, const uint8_t value, cb, actuator)`. -/
def set_uint8 (path : String) (value : Nat) (actuator : Bool) : SetRequest :=
  set path (Datapoint.kUint32 value) actuator

end KuksaClient

/-! ## HvacService: the dispatcher -/

/-- An externally visible action of the service: a frame handed to `sendto`,
a value written to a brightness file, a `Set` request sent to the broker. -/
inductive Effect where
  | can_send (frame : can_frame)
  | led_write (channel : LedChannel) (value : Int)
  | broker_set (request : SetRequest)
deriving DecidableEq, Repr

/-- The outcomes of the system calls made while one update is handled. -/
structure IoEnv where
  can_send_ok : Bool
  led : LedEnv
deriving DecidableEq, Repr

/-- The members of `HvacService` that `HandleSignalChange` reads or writes. -/
structure HvacService where
  m_can_helper : HvacCanHelper
  m_led_helper : HvacLedHelper
  m_IsAirConditioningActive : Bool
  m_IsFrontDefrosterActive : Bool
  m_IsRearDefrosterActive : Bool
  m_IsRecirculationActive : Bool
deriving DecidableEq, Repr

namespace HvacService

/-- The effects of the frames handed to `sendto`. -/
def can_effects (frames : List can_frame) : List Effect :=
  frames.map Effect.can_send

/-- The effects of the values written to the brightness files. -/
def led_effects (writes : List (LedChannel × Int)) : List Effect :=
  writes.map (fun w => Effect.led_write w.1 w.2)

/-- `HvacService::set_left_temperature`. -/
def set_left_temperature (s : HvacService) (io : IoEnv) (temp : Nat) :
    HvacService × List Effect :=
  let can := HvacCanHelper.set_left_temperature s.m_can_helper temp io.can_send_ok
  let led := HvacLedHelper.set_left_temperature s.m_led_helper temp io.led
  ( { s with m_can_helper := can.1, m_led_helper := led.1 },
    can_effects can.2 ++ led_effects led.2 ++
      [Effect.broker_set
        (KuksaClient.set_int32 "Vehicle.Cabin.HVAC.Station.Row1.Driver.Temperature"
          (temp : Int) false)] )

/-- `HvacService::set_right_temperature`. -/
def set_right_temperature (s : HvacService) (io : IoEnv) (temp : Nat) :
    HvacService × List Effect :=
  let can := HvacCanHelper.set_right_temperature s.m_can_helper temp io.can_send_ok
  let led := HvacLedHelper.set_right_temperature s.m_led_helper temp io.led
  ( { s with m_can_helper := can.1, m_led_helper := led.1 },
    can_effects can.2 ++ led_effects led.2 ++
      [Effect.broker_set
        (KuksaClient.set_int32 "Vehicle.Cabin.HVAC.Station.Row1.Passenger.Temperature"
          (temp : Int) false)] )

/-- `HvacService::set_fan_speed`. -/
def set_fan_speed (s : HvacService) (io : IoEnv) (speed : Nat) : HvacService × List Effect :=
  let can := HvacCanHelper.set_fan_speed s.m_can_helper speed io.can_send_ok
  ({ s with m_can_helper := can.1 }, can_effects can.2)

/-- `HvacService::set_left_fan_speed`. -/
def set_left_fan_speed (s : HvacService) (io : IoEnv) (speed : Nat) :
    HvacService × List Effect :=
  let r := set_fan_speed s io speed
  ( r.1,
    r.2 ++
      [Effect.broker_set
        (KuksaClient.set_uint8 "Vehicle.Cabin.HVAC.Station.Row1.Driver.FanSpeed" speed false)] )

/-- `HvacService::set_right_fan_speed`. -/
def set_right_fan_speed (s : HvacService) (io : IoEnv) (speed : Nat) :
    HvacService × List Effect :=
  let r := set_fan_speed s io speed
  ( r.1,
    r.2 ++
      [Effect.broker_set
        (KuksaClient.set_uint8 "Vehicle.Cabin.HVAC.Station.Row1.Passenger.FanSpeed" speed false)] )

/-- `HvacService::set_ac_active`. -/
def set_ac_active (s : HvacService) (active : Bool) : HvacService × List Effect :=
  if s.m_IsAirConditioningActive != active then
    ( { s with m_IsAirConditioningActive := active },
      [Effect.broker_set
        (KuksaClient.set_bool "Vehicle.Cabin.HVAC.IsAirConditioningActive" active false)] )
  else
    (s, [])

/-- `HvacService::set_front_defrost_active`. -/
def set_front_defrost_active (s : HvacService) (active : Bool) : HvacService × List Effect :=
  if s.m_IsFrontDefrosterActive != active then
    ( { s with m_IsFrontDefrosterActive := active },
      [Effect.broker_set
        (KuksaClient.set_bool "Vehicle.Cabin.HVAC.IsFrontDefrosterActive" active false)] )
  else
    (s, [])

/-- `HvacService::set_rear_defrost_active`. -/
def set_rear_defrost_active (s : HvacService) (active : Bool) : HvacService × List Effect :=
  if s.m_IsRearDefrosterActive != active then
    ( { s with m_IsRearDefrosterActive := active },
      [Effect.broker_set
        (KuksaClient.set_bool "Vehicle.Cabin.HVAC.IsRearDefrosterActive" active false)] )
  else
    (s, [])

/-- `HvacService::set_recirculation_active`. -/
def set_recirculation_active (s : HvacService) (active : Bool) : HvacService × List Effect :=
  if s.m_IsRecirculationActive != active then
    ( { s with m_IsRecirculationActive := active },
      [Effect.broker_set
        (KuksaClient.set_bool "Vehicle.Cabin.HVAC.IsRecirculationActive" active false)] )
  else
    (s, [])

/-- `HvacService::HandleSignalChange`. The `int` arguments of the setters are
converted to their `uint8_t` parameters at the calls. -/
def HandleSignalChange (s : HvacService) (io : IoEnv) (path : String) (dp : Datapoint) :
    HvacService × List Effect :=
  if path = "Vehicle.Cabin.HVAC.Station.Row1.Driver.Temperature" then
    if dp.has_int32 then
      let temp : Int := dp.int32
      if temp ≥ 0 ∧ temp < 256 then set_left_temperature s io (toUInt8 temp) else (s, [])
    else (s, [])
  else if path = "Vehicle.Cabin.HVAC.Station.Row1.Passenger.Temperature" then
    if dp.has_int32 then
      let temp : Int := dp.int32
      if temp ≥ 0 ∧ temp < 256 then set_right_temperature s io (toUInt8 temp) else (s, [])
    else (s, [])
  else if path = "Vehicle.Cabin.HVAC.Station.Row1.Driver.FanSpeed" then
    if dp.has_uint32 then
      let speed : Int := uint32ToInt dp.uint32
      if speed ≥ 0 ∧ speed ≤ 100 then set_left_fan_speed s io (toUInt8 speed) else (s, [])
    else (s, [])
  else if path = "Vehicle.Cabin.HVAC.Station.Row1.Passenger.FanSpeed" then
    if dp.has_uint32 then
      let speed : Int := uint32ToInt dp.uint32
      if speed ≥ 0 ∧ speed ≤ 100 then set_right_fan_speed s io (toUInt8 speed) else (s, [])
    else (s, [])
  else if path = "Vehicle.Cabin.HVAC.IsAirConditioningActive" then
    if dp.has_bool_ then set_ac_active s dp.bool_ else (s, [])
  else if path = "Vehicle.Cabin.HVAC.IsFrontDefrosterActive" then
    if dp.has_bool_ then set_front_defrost_active s dp.bool_ else (s, [])
  else if path = "Vehicle.Cabin.HVAC.IsRearDefrosterActive" then
    if dp.has_bool_ then set_rear_defrost_active s dp.bool_ else (s, [])
  else if path = "Vehicle.Cabin.HVAC.IsRecirculationActive" then
    if dp.has_bool_ then set_recirculation_active s dp.bool_ else (s, [])
  else
    (s, [])

/-- The `Set` requests among a list of effects, in order. -/
def broker_sets (effects : List Effect) : List SetRequest :=
  effects.filterMap (fun e => match e with
    | Effect.broker_set request => some request
    | _ => none)

/-- The members after the constructor of `HvacService`. -/
def init (can_active led_valid : Bool) : HvacService :=
  { m_can_helper := HvacCanHelper.init can_active
    m_led_helper := HvacLedHelper.init led_valid
    m_IsAirConditioningActive := false
    m_IsFrontDefrosterActive := false
    m_IsRearDefrosterActive := false
    m_IsRecirculationActive := false }

end HvacService

/-! ## Sequences of calls -/

namespace HvacCanHelper

/-- A call of one of the three public setters of `HvacCanHelper`. -/
inductive Call where
  | set_left_temperature (temp : Nat)
  | set_right_temperature (temp : Nat)
  | set_fan_speed (speed : Nat)
deriving DecidableEq, Repr

/-- Perform one setter call; `send_ok` is the outcome `sendto` would have
during this call. -/
def call (h : HvacCanHelper) (c : Call) (send_ok : Bool) : HvacCanHelper × List can_frame :=
  match c with
  | Call.set_left_temperature temp => set_left_temperature h temp send_ok
  | Call.set_right_temperature temp => set_right_temperature h temp send_ok
  | Call.set_fan_speed speed => set_fan_speed h speed send_ok

/-- Perform setter calls one after the other and collect the frames handed
to `sendto`. -/
def run (h : HvacCanHelper) : List (Call × Bool) → HvacCanHelper × List can_frame
  | [] => (h, [])
  | c :: rest =>
    let r := call h c.1 c.2
    let r' := run r.1 rest
    (r'.1, r.2 ++ r'.2)

end HvacCanHelper

/-- The numbers held by the three brightness files. -/
structure LedSinks where
  red : Int
  green : Int
  blue : Int
deriving DecidableEq, Repr

namespace HvacLedHelper

/-- The content of the brightness files after the given writes, each write
replacing the content of its own file. -/
def write_sinks (sinks : LedSinks) : List (LedChannel × Int) → LedSinks
  | [] => sinks
  | (LedChannel.red, v) :: rest => write_sinks { sinks with red := v } rest
  | (LedChannel.green, v) :: rest => write_sinks { sinks with green := v } rest
  | (LedChannel.blue, v) :: rest => write_sinks { sinks with blue := v } rest

/-- A call of one of the two public setters of `HvacLedHelper`. -/
inductive Call where
  | set_left_temperature (temp : Nat)
  | set_right_temperature (temp : Nat)
deriving DecidableEq, Repr

/-- Perform one setter call; `io` tells which files could be opened during
this call. -/
def call (h : HvacLedHelper) (c : Call) (io : LedEnv) :
    HvacLedHelper × List (LedChannel × Int) :=
  match c with
  | Call.set_left_temperature temp => set_left_temperature h temp io
  | Call.set_right_temperature temp => set_right_temperature h temp io

/-- Perform setter calls one after the other and collect the writes. -/
def run (h : HvacLedHelper) : List (Call × LedEnv) → HvacLedHelper × List (LedChannel × Int)
  | [] => (h, [])
  | c :: rest =>
    let r := call h c.1 c.2
    let r' := run r.1 rest
    (r'.1, r.2 ++ r'.2)

end HvacLedHelper

/-- One update handed to the dispatcher, with the outcomes of the system
calls made while it is handled. -/
structure Event where
  io : IoEnv
  path : String
  dp : Datapoint
deriving DecidableEq, Repr

namespace HvacService

/-- The updates of a stream dispatched in order: `HandleSignalChange` is
called for one after the other, the effects are collected in order. -/
def dispatch_all (s : HvacService) : List Event → HvacService × List Effect
  | [] => (s, [])
  | e :: rest =>
    let r := HandleSignalChange s e.io e.path e.dp
    let r' := dispatch_all r.1 rest
    (r'.1, r.2 ++ r'.2)

/-- The paths named by the entries of a `Set` request. -/
def request_paths (request : SetRequest) : List String :=
  request.updates.filterMap (fun u => u.entry.map (fun e => e.path))

/-- The paths of all `Set` requests among a list of effects, in order. -/
def set_paths (effects : List Effect) : List String :=
  (broker_sets effects).flatMap request_paths

/-- The number of `Set` requests for `path` among a list of effects. -/
def set_count (path : String) (effects : List Effect) : Nat :=
  (set_paths effects).count path

/-- The value of an event when it is a boolean update for `path`. -/
def flag_value (path : String) (e : Event) : Option Bool :=
  if e.path = path then
    match e.dp with
    | Datapoint.kBool v => some v
    | _ => none
  else none

/-- The values of the boolean updates for `path` among a list of events, in
order. -/
def flag_values (path : String) (events : List Event) : List Bool :=
  events.filterMap (flag_value path)

/-- The number of positions of a list of values at which the value differs
from its predecessor, `prev` being the predecessor of the first. -/
def transitions : Bool → List Bool → Nat
  | _, [] => 0
  | prev, v :: rest => (if v = prev then 0 else 1) + transitions v rest

end HvacService

/-! ## HvacLedHelper with write outcomes

`led_update` above takes a file that opens as written. The definitions of
this section follow the same code with the outcome of the insertion into the
opened stream as a further input: the code tests `is_open()` after `open`,
and never the state of the stream after `<<`. -/

/-- The outcome of the two operations `led_update` performs on one brightness
file: whether the stream is open after `open` (`is_open()`), and whether the
text inserted into the open stream is stored by the file. -/
structure SinkIo where
  is_open : Bool
  stored : Bool
deriving DecidableEq, Repr

/-- The outcomes for the three brightness files during one call of
`led_update`. -/
structure LedIo where
  red : SinkIo
  green : SinkIo
  blue : SinkIo
deriving DecidableEq, Repr

/-- One insertion `<< std::to_string(value)` into the opened file of a
channel, with its outcome. -/
structure LedInsertion where
  channel : LedChannel
  value : Int
  stored : Bool
deriving DecidableEq, Repr

namespace HvacLedHelper

/-- `HvacLedHelper::led_update` with write outcomes: for each file in the
order red, green, blue, an open stream receives the insertion, whatever the
outcome of it, and a stream that is not open clears `m_config_valid` and ends
the function. The returned list holds the insertions made, in order. -/
def led_update_io (h : HvacLedHelper) (io : LedIo) : HvacLedHelper × List LedInsertion :=
  if !h.m_config_valid then
    (h, [])
  else
    let v := led_values h
    if io.red.is_open then
      let red : LedInsertion := ⟨LedChannel.red, v.1, io.red.stored⟩
      if io.green.is_open then
        let green : LedInsertion := ⟨LedChannel.green, v.2.1, io.green.stored⟩
        if io.blue.is_open then
          let blue : LedInsertion := ⟨LedChannel.blue, v.2.2, io.blue.stored⟩
          (h, [red, green, blue])
        else
          ({ h with m_config_valid := false }, [red, green])
      else
        ({ h with m_config_valid := false }, [red])
    else
      ({ h with m_config_valid := false }, [])

/-- `HvacLedHelper::set_left_temperature` with write outcomes. -/
def set_left_temperature_io (h : HvacLedHelper) (temp : Nat) (io : LedIo) :
    HvacLedHelper × List LedInsertion :=
  led_update_io { h with m_temp_left := temp } io

/-- `HvacLedHelper::set_right_temperature` with write outcomes. -/
def set_right_temperature_io (h : HvacLedHelper) (temp : Nat) (io : LedIo) :
    HvacLedHelper × List LedInsertion :=
  led_update_io { h with m_temp_right := temp } io

/-- Perform one setter call with the given outcomes. -/
def call_io (h : HvacLedHelper) (c : Call) (io : LedIo) : HvacLedHelper × List LedInsertion :=
  match c with
  | Call.set_left_temperature temp => set_left_temperature_io h temp io
  | Call.set_right_temperature temp => set_right_temperature_io h temp io

/-- Perform setter calls one after the other and collect the insertions. -/
def run_io (h : HvacLedHelper) : List (Call × LedIo) → HvacLedHelper × List LedInsertion
  | [] => (h, [])
  | c :: rest =>
    let r := call_io h c.1 c.2
    let r' := run_io r.1 rest
    (r'.1, r.2 ++ r'.2)

/-- The writes among a list of insertions that the files have stored. -/
def stored_writes (insertions : List LedInsertion) : List (LedChannel × Int) :=
  insertions.filterMap (fun i => if i.stored then some (i.channel, i.value) else none)

end HvacLedHelper

/-! ## KuksaClient: subscriptions -/

/-- Modelled from the spec: the `SubscribeResponse` message, the list of
updates of one stream message. -/
structure SubscribeResponse where
  updates : List EntryUpdate
deriving DecidableEq, Repr

/-- Modelled from the spec: one entry of a `SubscribeRequest`, a path with
the fields asked for. -/
structure SubscribeEntry where
  path : String
  fields : List Field
deriving DecidableEq, Repr

/-- Modelled from the spec: the `SubscribeRequest` message, "an ordered set
of (Signal Path, field-kind) pairs". -/
structure SubscribeRequest where
  entries : List SubscribeEntry
deriving DecidableEq, Repr

/-- Modelled from the spec: the code of a terminal stream status, "ok /
cancelled / other"; `other` carries the number of any further code. -/
inductive StatusCode where
  | OK
  | CANCELLED
  | other (code : Nat)
deriving DecidableEq, Repr

/-- Modelled from the spec: the terminal status of a stream (`grpc::Status`,
not part of the sources), a code and a message. -/
structure Status where
  error_code : StatusCode
  error_message : String
deriving DecidableEq, Repr

namespace DataEntry

/-- `DataEntry::has_actuator_target`. -/
def has_actuator_target (e : DataEntry) : Bool := e.actuator_target.isSome

/-- The accessor `DataEntry::actuator_target()`: the stored Datapoint, an
empty Datapoint when none is present. -/
def get_actuator_target (e : DataEntry) : Datapoint :=
  e.actuator_target.getD Datapoint.VALUE_NOT_SET

/-- The accessor `DataEntry::value()`: the stored Datapoint, an empty
Datapoint when none is present. -/
def get_value (e : DataEntry) : Datapoint :=
  e.value.getD Datapoint.VALUE_NOT_SET

end DataEntry

namespace KuksaClient

/-- The loop of `KuksaClient::handleSubscribeResponse` over the updates: the
list of callback invocations `cb(entry.path(), dp)` it makes, in order.
`path().size()` is the length of the path in bytes. -/
def handleSubscribeResponse_loop : List EntryUpdate → List (String × Datapoint)
  | [] => []
  | it :: rest =>
    match it.entry with
    | none => handleSubscribeResponse_loop rest
    | some entry =>
      if entry.path.utf8ByteSize = 0 then
        handleSubscribeResponse_loop rest
      else
        let dp : Datapoint :=
          if entry.has_actuator_target then entry.get_actuator_target else entry.get_value
        (entry.path, dp) :: handleSubscribeResponse_loop rest

/-- `KuksaClient::handleSubscribeResponse`: `response` is the pointer to the
message (`none` for a null pointer), `cb` tells whether the callback is set.
The result is the list of callback invocations, in order. -/
def handleSubscribeResponse (response : Option SubscribeResponse) (cb : Bool) :
    List (String × Datapoint) :=
  match response with
  | none => []
  | some r =>
    if r.updates.length = 0 ∨ cb = false then [] else handleSubscribeResponse_loop r.updates

/-- The callback invocations the specification asks for: one for each update
that has an entry with a non-empty path, in the order of the message, with
the actuator-target Datapoint of the entry when one is present and its value
Datapoint otherwise. -/
def spec_subscribe_calls (updates : List EntryUpdate) : List (String × Datapoint) :=
  updates.filterMap (fun u =>
    match u.entry with
    | none => none
    | some entry =>
      if entry.path = "" then none
      else
        match entry.actuator_target with
        | some target => some (entry.path, target)
        | none => some (entry.path, entry.value.getD Datapoint.VALUE_NOT_SET))

/-- `KuksaClient::subscribe(const SubscribeRequest *request, cb, done_cb)`:
the streams opened, each given by the request passed to the `Subscribe` call
of the stub. `request` is the pointer (`none` for a null pointer), `cb` tells
whether the callback is set. -/
def subscribe (request : Option SubscribeRequest) (cb : Bool) : List SubscribeRequest :=
  match request with
  | none => []
  | some r => if cb then [r] else []

end KuksaClient

/-! ## HvacService: resubscribing -/

/-- The `struct resubscribe_data` of HvacService.h: `self` is the pointer to
the service (its address, `none` for a null pointer), `request` is the
pointer to the copied request. -/
structure resubscribe_data where
  self : Option Nat
  request : Option SubscribeRequest
deriving DecidableEq, Repr

/-- A timer registered with `g_timeout_add_full` whose function is
`resubscribe_cb`: the interval in milliseconds and the `data` pointer. -/
structure Timeout where
  interval : Nat
  data : Option resubscribe_data
deriving DecidableEq, Repr

/-- What a timer callback finds of the `HvacService` object it was given:
its address, whether its destructor has run, and whether `m_broker` is
non-null. -/
structure ServiceObject where
  address : Nat
  destroyed : Bool
  m_broker : Bool
deriving DecidableEq, Repr

/-- The outcome of one run of `resubscribe_cb`. -/
inductive CallbackResult where
  | nothing
  | resubscribed (opened : List SubscribeRequest)
  | call_on_destroyed_object
deriving DecidableEq, Repr

namespace HvacService

/-- `HvacService::HandleSubscribeDone`: the timers it registers. `this` is
the address of the service, `request` the finished request (the reader never
hands over a null pointer), copied by `new SubscribeRequest(*request)`. -/
def HandleSubscribeDone (this : Nat) (request : SubscribeRequest) (status : Status) :
    List Timeout :=
  if status.error_code = StatusCode.CANCELLED then
    []
  else
    let data : resubscribe_data := { self := some this, request := some request }
    [{ interval := 100, data := some data }]

/-- `HvacService::Resubscribe`: the streams opened. The two callbacks passed
to `subscribe` are lambdas, so `cb` is set. -/
def Resubscribe (m_broker : Bool) (request : Option SubscribeRequest) : List SubscribeRequest :=
  if !(m_broker && request.isSome) then [] else KuksaClient.subscribe request true

/-- `HvacService::resubscribe_cb`: when `d` and `d->self` are non-null,
`Resubscribe` is called on the object `d->self` points to. On a live object
the call opens its streams; on an object whose destructor has run the call
has no defined behaviour. -/
def resubscribe_cb (object : ServiceObject) (data : Option resubscribe_data) : CallbackResult :=
  match data with
  | none => CallbackResult.nothing
  | some d =>
    match d.self with
    | none => CallbackResult.nothing
    | some _ =>
      if object.destroyed then CallbackResult.call_on_destroyed_object
      else CallbackResult.resubscribed (Resubscribe object.m_broker d.request)

end HvacService

namespace HvacService

end HvacService

/-! ## Theorems -/

open HvacCanHelper

/-- The conversion to `uint8_t` leaves a value below 256 as it is. -/
theorem toUInt8_of_lt (n : Nat) (h : n < 256) : toUInt8 (n : Int) = n := by
  unfold toUInt8
  omega

/-- Closed form of `convert_temp`: slope 14, clamped to `[0x10, 0xF0]`. -/
theorem convert_temp_eq (v : Nat) :
    convert_temp v = if v < 15 then 16 else if 31 ≤ v then 240 else 14 * (v - 15) + 16 := by
  have h14 : Int.tdiv (0xF0 - 0x10) 15 = 14 := by decide
  unfold convert_temp toUInt8
  simp only [h14]
  split_ifs <;> omega

/-- The average that `can_update` converts: for stored `uint8_t` values the
shift of the `int` sum, converted to `uint8_t`, is the shift of the sum. -/
theorem average_eq (l r : Nat) (hl : l < 256) (hr : r < 256) :
    toUInt8 (((l : Int) + (r : Int)) >>> (1 : Nat)) = (l + r) >>> 1 := by
  rw [Int.shiftRight_eq_div_pow, Nat.shiftRight_eq_div_pow]
  unfold toUInt8
  simp only [pow_one, Nat.cast_ofNat]
  omega

/-- The frame assembled by `can_update` is the frame of the specification. -/
theorem build_frame_eq (h : HvacCanHelper) (hl : h.m_temp_left < 256)
    (hr : h.m_temp_right < 256) :
    build_frame h = spec_frame h.m_temp_left h.m_temp_right h.m_fan_speed := by
  unfold build_frame spec_frame
  rw [average_eq _ _ hl hr]

/-- On an active channel `can_update` hands over exactly the assembled
frame. -/
theorem can_update_active (h : HvacCanHelper) (send_ok : Bool) (hact : h.m_active = true) :
    (can_update h send_ok).2 = [build_frame h] := by
  unfold can_update
  cases send_ok <;> simp [hact]

/-- The fan byte for every input up to 100, by evaluation of the binary64
operations. -/
theorem scaled_fan_speed_eq :
    ∀ s, s ≤ 100 → scaled_fan_speed s = (s * 255 * 2 + 100) / (100 * 2) := by
  decide!

/-- The index computed by `led_update` is the temperature less 15, limited
to `0..15`, and lies inside the table. -/
theorem led_index_in_table (t : Nat) :
    HvacLedHelper.led_index t = max 0 (min 15 ((t : Int) - 15)) ∧
    0 ≤ HvacLedHelper.led_index t ∧
    (HvacLedHelper.led_index t).toNat < degree_colours.length := by
  have hlen : degree_colours.length = 16 := rfl
  rw [hlen]
  unfold HvacLedHelper.led_index
  simp only []
  split_ifs <;> omega

/-- Every row of the table has channel values in `0..229`. -/
theorem degree_colours_bounds :
    ∀ k : Nat, k < 16 →
      ∃ row : degree_colour, degree_colours[k]? = some row ∧
        HvacLedHelper.rgb_at (k : Int) = row.rgb ∧
        (0 ≤ row.rgb.1 ∧ row.rgb.1 ≤ 229) ∧
        (0 ≤ row.rgb.2.1 ∧ row.rgb.2.1 ≤ 229) ∧
        (0 ≤ row.rgb.2.2 ∧ row.rgb.2.2 ≤ 229) := by
  intro k hk
  interval_cases k <;> exact ⟨_, rfl, rfl, by decide⟩

/-- With a valid configuration and three writable files `led_update` writes
the three computed values, red first, then green, then blue. -/
theorem led_update_all_open (h : HvacLedHelper) (hv : h.m_config_valid = true) :
    HvacLedHelper.led_update h ⟨true, true, true⟩ =
      (h, [ (LedChannel.red, (HvacLedHelper.led_values h).1),
            (LedChannel.green, (HvacLedHelper.led_values h).2.1),
            (LedChannel.blue, (HvacLedHelper.led_values h).2.2) ]) := by
  unfold HvacLedHelper.led_update
  simp [hv]

/-- `can_update` changes no stored temperature and no fan byte. -/
theorem can_update_members (h : HvacCanHelper) (send_ok : Bool) :
    (can_update h send_ok).1.m_temp_left = h.m_temp_left ∧
    (can_update h send_ok).1.m_temp_right = h.m_temp_right ∧
    (can_update h send_ok).1.m_fan_speed = h.m_fan_speed := by
  unfold can_update
  cases send_ok <;> cases h.m_active <;> simp

/-- `led_update` changes no stored temperature. -/
theorem led_update_members (h : HvacLedHelper) (io : LedEnv) :
    (HvacLedHelper.led_update h io).1.m_temp_left = h.m_temp_left ∧
    (HvacLedHelper.led_update h io).1.m_temp_right = h.m_temp_right := by
  unfold HvacLedHelper.led_update
  cases h.m_config_valid <;> cases io.red_open <;> cases io.green_open <;>
    cases io.blue_open <;> simp

/-- The effects of CAN frames contain no `Set` request. -/
theorem broker_sets_can_effects (frames : List can_frame) :
    HvacService.broker_sets (HvacService.can_effects frames) = [] := by
  unfold HvacService.broker_sets HvacService.can_effects
  induction frames with
  | nil => rfl
  | cons f fs ih =>
    rw [List.map_cons, List.filterMap_cons]
    exact ih

/-- The effects of LED writes contain no `Set` request. -/
theorem broker_sets_led_effects (writes : List (LedChannel × Int)) :
    HvacService.broker_sets (HvacService.led_effects writes) = [] := by
  unfold HvacService.broker_sets HvacService.led_effects
  induction writes with
  | nil => rfl
  | cons w ws ih =>
    rw [List.map_cons, List.filterMap_cons]
    exact ih

/-- The `Set` requests of a concatenation. -/
theorem broker_sets_append (xs ys : List Effect) :
    HvacService.broker_sets (xs ++ ys) =
      HvacService.broker_sets xs ++ HvacService.broker_sets ys := by
  unfold HvacService.broker_sets
  exact List.filterMap_append _ _ _

/-- An accepted `int32` temperature on the driver path reaches
`set_left_temperature` with the same value. -/
theorem HandleSignalChange_driver_temperature (s : HvacService) (io : IoEnv) (v : Int)
    (h0 : 0 ≤ v) (h255 : v ≤ 255) :
    HvacService.HandleSignalChange s io "Vehicle.Cabin.HVAC.Station.Row1.Driver.Temperature"
        (Datapoint.kInt32 v) =
      HvacService.set_left_temperature s io v.toNat := by
  have hv : v < 256 := by omega
  have hu : toUInt8 v = v.toNat := by unfold toUInt8; omega
  simp [HvacService.HandleSignalChange, Datapoint.has_int32, Datapoint.int32, h0, hv, hu]

/-- An accepted `int32` temperature on the passenger path reaches
`set_right_temperature` with the same value. -/
theorem HandleSignalChange_passenger_temperature (s : HvacService) (io : IoEnv) (v : Int)
    (h0 : 0 ≤ v) (h255 : v ≤ 255) :
    HvacService.HandleSignalChange s io "Vehicle.Cabin.HVAC.Station.Row1.Passenger.Temperature"
        (Datapoint.kInt32 v) =
      HvacService.set_right_temperature s io v.toNat := by
  have hv : v < 256 := by omega
  have hu : toUInt8 v = v.toNat := by unfold toUInt8; omega
  simp [HvacService.HandleSignalChange, Datapoint.has_int32, Datapoint.int32, h0, hv, hu]

/-- The conversion of a `uint32_t` up to 100 to `int` and on to `uint8_t`
keeps the value. -/
theorem uint32ToInt_small (u : Nat) (hu : u ≤ 100) :
    uint32ToInt u = (u : Int) ∧ toUInt8 (uint32ToInt u) = u := by
  have h1 : uint32ToInt u = (u : Int) := by
    unfold uint32ToInt
    have hm : u % 2 ^ 32 = u := Nat.mod_eq_of_lt (by omega)
    rw [hm]
    have hlt : u < 2 ^ 31 := by omega
    rw [if_pos hlt]
  refine ⟨h1, ?_⟩
  rw [h1]
  unfold toUInt8
  omega

/-- An accepted `uint32` fan speed on the driver path reaches
`set_left_fan_speed` with the same value. -/
theorem HandleSignalChange_driver_fan_speed (s : HvacService) (io : IoEnv) (u : Nat)
    (hu : u ≤ 100) :
    HvacService.HandleSignalChange s io "Vehicle.Cabin.HVAC.Station.Row1.Driver.FanSpeed"
        (Datapoint.kUint32 u) =
      HvacService.set_left_fan_speed s io u := by
  obtain ⟨h1, h2⟩ := uint32ToInt_small u hu
  have h3 : (u : Int) ≤ 100 := by omega
  simp [HvacService.HandleSignalChange, Datapoint.has_uint32, Datapoint.uint32, h1, h3]
  rw [← h1, h2]

/-- An accepted `uint32` fan speed on the passenger path reaches
`set_right_fan_speed` with the same value. -/
theorem HandleSignalChange_passenger_fan_speed (s : HvacService) (io : IoEnv) (u : Nat)
    (hu : u ≤ 100) :
    HvacService.HandleSignalChange s io "Vehicle.Cabin.HVAC.Station.Row1.Passenger.FanSpeed"
        (Datapoint.kUint32 u) =
      HvacService.set_right_fan_speed s io u := by
  obtain ⟨h1, h2⟩ := uint32ToInt_small u hu
  have h3 : (u : Int) ≤ 100 := by omega
  simp [HvacService.HandleSignalChange, Datapoint.has_uint32, Datapoint.uint32, h1, h3]
  rw [← h1, h2]

/-- The only `Set` request of `set_left_temperature`. -/
theorem broker_sets_set_left_temperature (s : HvacService) (io : IoEnv) (temp : Nat) :
    HvacService.broker_sets (HvacService.set_left_temperature s io temp).2 =
      [KuksaClient.set_int32 "Vehicle.Cabin.HVAC.Station.Row1.Driver.Temperature"
        (temp : Int) false] := by
  unfold HvacService.set_left_temperature
  simp only [broker_sets_append, broker_sets_can_effects, broker_sets_led_effects,
    List.nil_append]
  rfl

/-- The only `Set` request of `set_right_temperature`. -/
theorem broker_sets_set_right_temperature (s : HvacService) (io : IoEnv) (temp : Nat) :
    HvacService.broker_sets (HvacService.set_right_temperature s io temp).2 =
      [KuksaClient.set_int32 "Vehicle.Cabin.HVAC.Station.Row1.Passenger.Temperature"
        (temp : Int) false] := by
  unfold HvacService.set_right_temperature
  simp only [broker_sets_append, broker_sets_can_effects, broker_sets_led_effects,
    List.nil_append]
  rfl

/-- The only `Set` request of `set_left_fan_speed`. -/
theorem broker_sets_set_left_fan_speed (s : HvacService) (io : IoEnv) (speed : Nat) :
    HvacService.broker_sets (HvacService.set_left_fan_speed s io speed).2 =
      [KuksaClient.set_uint8 "Vehicle.Cabin.HVAC.Station.Row1.Driver.FanSpeed" speed false] := by
  unfold HvacService.set_left_fan_speed HvacService.set_fan_speed
  simp only [broker_sets_append, broker_sets_can_effects, List.nil_append]
  rfl

/-- The only `Set` request of `set_right_fan_speed`. -/
theorem broker_sets_set_right_fan_speed (s : HvacService) (io : IoEnv) (speed : Nat) :
    HvacService.broker_sets (HvacService.set_right_fan_speed s io speed).2 =
      [KuksaClient.set_uint8 "Vehicle.Cabin.HVAC.Station.Row1.Passenger.FanSpeed" speed
        false] := by
  unfold HvacService.set_right_fan_speed HvacService.set_fan_speed
  simp only [broker_sets_append, broker_sets_can_effects, List.nil_append]
  rfl

/-- A setter call on an inactive channel hands nothing to `sendto` and leaves
the channel inactive. -/
theorem call_inactive (h : HvacCanHelper) (c : HvacCanHelper.Call) (send_ok : Bool)
    (hin : h.m_active = false) :
    (HvacCanHelper.call h c send_ok).2 = [] ∧
    (HvacCanHelper.call h c send_ok).1.m_active = false := by
  cases c <;>
    simp [HvacCanHelper.call, set_left_temperature, set_right_temperature, set_fan_speed,
      can_update, hin]

/-- A sequence of setter calls on an inactive channel hands nothing to
`sendto` and leaves the channel inactive. -/
theorem run_inactive (calls : List (HvacCanHelper.Call × Bool)) :
    ∀ h : HvacCanHelper, h.m_active = false →
      (HvacCanHelper.run h calls).2 = [] ∧ (HvacCanHelper.run h calls).1.m_active = false := by
  induction calls with
  | nil =>
    intro h hin
    exact ⟨rfl, hin⟩
  | cons c rest ih =>
    intro h hin
    obtain ⟨h1, h2⟩ := call_inactive h c.1 c.2 hin
    obtain ⟨h3, h4⟩ := ih _ h2
    unfold HvacCanHelper.run
    simp only [h1, h3, List.append_nil]
    exact ⟨trivial, h4⟩

/-- The member a setter call stores, whatever the state of the channel. -/
theorem call_stores (h : HvacCanHelper) (send_ok : Bool) :
    (∀ t, (HvacCanHelper.call h (HvacCanHelper.Call.set_left_temperature t) send_ok).1.m_temp_left
        = t) ∧
    (∀ t, (HvacCanHelper.call h (HvacCanHelper.Call.set_right_temperature t)
        send_ok).1.m_temp_right = t) ∧
    (∀ s, (HvacCanHelper.call h (HvacCanHelper.Call.set_fan_speed s) send_ok).1.m_fan_speed
        = scaled_fan_speed s) := by
  refine ⟨?_, ?_, ?_⟩ <;> intro t
  · exact (can_update_members { h with m_temp_left := t } send_ok).1
  · exact (can_update_members { h with m_temp_right := t } send_ok).2.1
  · exact (can_update_members { h with m_fan_speed := scaled_fan_speed t } send_ok).2.2

/-- A setter call on an active channel hands exactly one frame to `sendto`;
the channel stays active exactly when the transmission succeeds. -/
theorem call_active (h : HvacCanHelper) (c : HvacCanHelper.Call) (send_ok : Bool)
    (hact : h.m_active = true) :
    (HvacCanHelper.call h c send_ok).2.length = 1 ∧
    (HvacCanHelper.call h c send_ok).1.m_active = send_ok := by
  cases c <;> cases send_ok <;>
    simp [HvacCanHelper.call, set_left_temperature, set_right_temperature, set_fan_speed,
      can_update, hact]

/-- A setter call on an invalid LED configuration writes nothing and leaves
the configuration invalid. -/
theorem led_call_invalid (h : HvacLedHelper) (c : HvacLedHelper.Call) (io : LedEnv)
    (hin : h.m_config_valid = false) :
    (HvacLedHelper.call h c io).2 = [] ∧
    (HvacLedHelper.call h c io).1.m_config_valid = false := by
  cases c <;>
    simp [HvacLedHelper.call, HvacLedHelper.set_left_temperature,
      HvacLedHelper.set_right_temperature, HvacLedHelper.led_update, hin]

/-- A sequence of setter calls on an invalid LED configuration writes
nothing. -/
theorem led_run_invalid (calls : List (HvacLedHelper.Call × LedEnv)) :
    ∀ h : HvacLedHelper, h.m_config_valid = false →
      (HvacLedHelper.run h calls).2 = [] ∧
      (HvacLedHelper.run h calls).1.m_config_valid = false := by
  induction calls with
  | nil =>
    intro h hin
    exact ⟨rfl, hin⟩
  | cons c rest ih =>
    intro h hin
    obtain ⟨h1, h2⟩ := led_call_invalid h c.1 c.2 hin
    obtain ⟨h3, h4⟩ := ih _ h2
    unfold HvacLedHelper.run
    simp only [h1, h3, List.append_nil]
    exact ⟨trivial, h4⟩

/-- A path has size zero exactly when it is the empty string. -/
theorem utf8ByteSize_eq_zero (s : String) : s.utf8ByteSize = 0 ↔ s = "" := by
  cases s with
  | mk cs =>
    cases cs with
    | nil => exact ⟨fun _ => rfl, fun _ => rfl⟩
    | cons c cs =>
      constructor
      · intro h
        have hpos := Char.utf8Size_pos c
        simp only [String.utf8ByteSize_mk, String.utf8Len_cons] at h
        omega
      · intro h
        exact absurd (congrArg String.data h) (by simp)

/-- The loop of `handleSubscribeResponse` makes the callback invocations of
the specification. -/
theorem handleSubscribeResponse_loop_eq (updates : List EntryUpdate) :
    KuksaClient.handleSubscribeResponse_loop updates =
      KuksaClient.spec_subscribe_calls updates := by
  induction updates with
  | nil => rfl
  | cons u rest ih =>
    unfold KuksaClient.handleSubscribeResponse_loop KuksaClient.spec_subscribe_calls
    rw [List.filterMap_cons]
    cases hu : u.entry with
    | none =>
      simp only []
      exact ih
    | some entry =>
      simp only [utf8ByteSize_eq_zero]
      by_cases hp : entry.path = ""
      · simp only [hp, if_true]
        exact ih
      · simp only [hp, if_false]
        cases ht : entry.actuator_target with
        | none =>
          simp only [DataEntry.has_actuator_target, DataEntry.get_value, ht, Option.isSome_none,
            Bool.false_eq_true, if_false]
          exact congrArg _ ih
        | some target =>
          simp only [DataEntry.has_actuator_target, DataEntry.get_actuator_target, ht,
            Option.isSome_some, if_true, Option.getD_some]
          exact congrArg _ ih

/-- The paths of the `Set` requests of a concatenation. -/
theorem set_paths_append (xs ys : List Effect) :
    HvacService.set_paths (xs ++ ys) = HvacService.set_paths xs ++ HvacService.set_paths ys := by
  unfold HvacService.set_paths
  rw [broker_sets_append, List.flatMap_append]

/-- The number of `Set` requests for a path in a concatenation. -/
theorem set_count_append (path : String) (xs ys : List Effect) :
    HvacService.set_count path (xs ++ ys) =
      HvacService.set_count path xs + HvacService.set_count path ys := by
  unfold HvacService.set_count
  rw [set_paths_append, List.count_append]

/-- The `Set` requests of one update handled by `HandleSignalChange` name no
other path than the path of the update, and name it at most once. -/
theorem HandleSignalChange_set_paths (s : HvacService) (io : IoEnv) (path : String)
    (dp : Datapoint) :
    HvacService.set_paths (HvacService.HandleSignalChange s io path dp).2 = [] ∨
    HvacService.set_paths (HvacService.HandleSignalChange s io path dp).2 = [path] := by
  unfold HvacService.HandleSignalChange
  dsimp only
  split_ifs <;> first
    | exact Or.inl rfl
    | (subst_vars
       unfold HvacService.set_paths
       first
         | rw [broker_sets_set_left_temperature]
         | rw [broker_sets_set_right_temperature]
         | rw [broker_sets_set_left_fan_speed]
         | rw [broker_sets_set_right_fan_speed]
       exact Or.inr rfl)
    | (subst_vars
       unfold HvacService.set_ac_active
       split_ifs
       · exact Or.inr rfl
       · exact Or.inl rfl)
    | (subst_vars
       unfold HvacService.set_front_defrost_active
       split_ifs
       · exact Or.inr rfl
       · exact Or.inl rfl)
    | (subst_vars
       unfold HvacService.set_rear_defrost_active
       split_ifs
       · exact Or.inr rfl
       · exact Or.inl rfl)
    | (subst_vars
       unfold HvacService.set_recirculation_active
       split_ifs
       · exact Or.inr rfl
       · exact Or.inl rfl)

/-- An update for another path adds no `Set` request for `path`. -/
theorem HandleSignalChange_set_count_other (s : HvacService) (io : IoEnv)
    (path other : String) (dp : Datapoint) (hne : other ≠ path) :
    HvacService.set_count path (HvacService.HandleSignalChange s io other dp).2 = 0 := by
  unfold HvacService.set_count
  rcases HandleSignalChange_set_paths s io other dp with h | h
  · rw [h]
    rfl
  · rw [h]
    exact List.count_eq_zero_of_not_mem (by simpa using fun h' => hne h'.symm)

/-- The counting argument shared by the four flags. For a flag read by `flag`
and updated on path `p`: when updates for other paths leave the flag as it
is, a boolean update for `p` stores its value and sends one `Set` request
exactly when the value differs from the stored one, and any other Datapoint
on `p` is dropped, then the number of `Set` requests for `p` sent while a
list of events is dispatched is the number of value changes among the boolean
updates for `p`, counted from the stored flag. -/
theorem set_count_eq_transitions (flag : HvacService → Bool) (p : String)
    (hother : ∀ (s : HvacService) (io : IoEnv) (path : String) (dp : Datapoint),
      path ≠ p → flag (HvacService.HandleSignalChange s io path dp).1 = flag s)
    (hbool : ∀ (s : HvacService) (io : IoEnv) (v : Bool),
      flag (HvacService.HandleSignalChange s io p (Datapoint.kBool v)).1 = v ∧
      HvacService.set_count p (HvacService.HandleSignalChange s io p (Datapoint.kBool v)).2 =
        (if v = flag s then 0 else 1))
    (hdrop : ∀ (s : HvacService) (io : IoEnv) (dp : Datapoint),
      (∀ v, dp ≠ Datapoint.kBool v) → HvacService.HandleSignalChange s io p dp = (s, []))
    (events : List Event) :
    ∀ s : HvacService,
      HvacService.set_count p (HvacService.dispatch_all s events).2 =
        HvacService.transitions (flag s) (HvacService.flag_values p events) := by
  induction events with
  | nil =>
    intro s
    rfl
  | cons e rest ih =>
    intro s
    unfold HvacService.dispatch_all
    simp only [set_count_append]
    rw [ih]
    unfold HvacService.flag_values
    rw [List.filterMap_cons]
    by_cases hp : e.path = p
    · by_cases hb : ∃ v, e.dp = Datapoint.kBool v
      · obtain ⟨v, hv⟩ := hb
        obtain ⟨h1, h2⟩ := hbool s e.io v
        have hf : HvacService.flag_value p e = some v := by
          unfold HvacService.flag_value
          rw [if_pos hp, hv]
        rw [hf, hp, hv, h1, h2]
        rfl
      · have hne : ∀ v, e.dp ≠ Datapoint.kBool v := fun v h => hb ⟨v, h⟩
        have hf : HvacService.flag_value p e = none := by
          unfold HvacService.flag_value
          rw [if_pos hp]
          cases hdp : e.dp <;> first | rfl | exact absurd hdp (hne _)
        rw [hf, hp, hdrop s e.io e.dp hne]
        exact Nat.zero_add _
    · have hf : HvacService.flag_value p e = none := by
        unfold HvacService.flag_value
        rw [if_neg hp]
      rw [hf, HandleSignalChange_set_count_other s e.io p e.path e.dp hp,
        hother s e.io e.path e.dp hp]
      exact Nat.zero_add _

/-- The air-conditioning flag is touched by updates on its own path only. -/
theorem HandleSignalChange_ac_other (s : HvacService) (io : IoEnv) (path : String)
    (dp : Datapoint) (hne : path ≠ "Vehicle.Cabin.HVAC.IsAirConditioningActive") :
    (HvacService.HandleSignalChange s io path dp).1.m_IsAirConditioningActive =
      s.m_IsAirConditioningActive := by
  unfold HvacService.HandleSignalChange
  dsimp only
  split_ifs <;> first
    | contradiction
    | rfl
    | (unfold HvacService.set_front_defrost_active; split_ifs <;> rfl)
    | (unfold HvacService.set_rear_defrost_active; split_ifs <;> rfl)
    | (unfold HvacService.set_recirculation_active; split_ifs <;> rfl)

/-- The front-defroster flag is touched by updates on its own path only. -/
theorem HandleSignalChange_front_other (s : HvacService) (io : IoEnv) (path : String)
    (dp : Datapoint) (hne : path ≠ "Vehicle.Cabin.HVAC.IsFrontDefrosterActive") :
    (HvacService.HandleSignalChange s io path dp).1.m_IsFrontDefrosterActive =
      s.m_IsFrontDefrosterActive := by
  unfold HvacService.HandleSignalChange
  dsimp only
  split_ifs <;> first
    | contradiction
    | rfl
    | (unfold HvacService.set_ac_active; split_ifs <;> rfl)
    | (unfold HvacService.set_rear_defrost_active; split_ifs <;> rfl)
    | (unfold HvacService.set_recirculation_active; split_ifs <;> rfl)

/-- The rear-defroster flag is touched by updates on its own path only. -/
theorem HandleSignalChange_rear_other (s : HvacService) (io : IoEnv) (path : String)
    (dp : Datapoint) (hne : path ≠ "Vehicle.Cabin.HVAC.IsRearDefrosterActive") :
    (HvacService.HandleSignalChange s io path dp).1.m_IsRearDefrosterActive =
      s.m_IsRearDefrosterActive := by
  unfold HvacService.HandleSignalChange
  dsimp only
  split_ifs <;> first
    | contradiction
    | rfl
    | (unfold HvacService.set_ac_active; split_ifs <;> rfl)
    | (unfold HvacService.set_front_defrost_active; split_ifs <;> rfl)
    | (unfold HvacService.set_recirculation_active; split_ifs <;> rfl)

/-- The recirculation flag is touched by updates on its own path only. -/
theorem HandleSignalChange_recirculation_other (s : HvacService) (io : IoEnv) (path : String)
    (dp : Datapoint) (hne : path ≠ "Vehicle.Cabin.HVAC.IsRecirculationActive") :
    (HvacService.HandleSignalChange s io path dp).1.m_IsRecirculationActive =
      s.m_IsRecirculationActive := by
  unfold HvacService.HandleSignalChange
  dsimp only
  split_ifs <;> first
    | contradiction
    | rfl
    | (unfold HvacService.set_ac_active; split_ifs <;> rfl)
    | (unfold HvacService.set_front_defrost_active; split_ifs <;> rfl)
    | (unfold HvacService.set_rear_defrost_active; split_ifs <;> rfl)

/-- A boolean update on a flag path reaches the setter of the flag. -/
theorem HandleSignalChange_flag (s : HvacService) (io : IoEnv) (v : Bool) :
    HvacService.HandleSignalChange s io "Vehicle.Cabin.HVAC.IsAirConditioningActive"
        (Datapoint.kBool v) = HvacService.set_ac_active s v ∧
    HvacService.HandleSignalChange s io "Vehicle.Cabin.HVAC.IsFrontDefrosterActive"
        (Datapoint.kBool v) = HvacService.set_front_defrost_active s v ∧
    HvacService.HandleSignalChange s io "Vehicle.Cabin.HVAC.IsRearDefrosterActive"
        (Datapoint.kBool v) = HvacService.set_rear_defrost_active s v ∧
    HvacService.HandleSignalChange s io "Vehicle.Cabin.HVAC.IsRecirculationActive"
        (Datapoint.kBool v) = HvacService.set_recirculation_active s v := by
  refine ⟨?_, ?_, ?_, ?_⟩ <;>
    simp only [HvacService.HandleSignalChange, Datapoint.has_bool_, Datapoint.bool_,
      String.reduceEq, if_true, if_false]

/-- A Datapoint that is not a boolean is dropped on each flag path. -/
theorem HandleSignalChange_flag_drop (s : HvacService) (io : IoEnv) (dp : Datapoint)
    (h : ∀ v, dp ≠ Datapoint.kBool v) :
    HvacService.HandleSignalChange s io "Vehicle.Cabin.HVAC.IsAirConditioningActive" dp =
      (s, []) ∧
    HvacService.HandleSignalChange s io "Vehicle.Cabin.HVAC.IsFrontDefrosterActive" dp =
      (s, []) ∧
    HvacService.HandleSignalChange s io "Vehicle.Cabin.HVAC.IsRearDefrosterActive" dp =
      (s, []) ∧
    HvacService.HandleSignalChange s io "Vehicle.Cabin.HVAC.IsRecirculationActive" dp =
      (s, []) := by
  have hk : dp.has_bool_ = false := by
    cases dp <;> first | rfl | exact absurd rfl (h _)
  refine ⟨?_, ?_, ?_, ?_⟩ <;>
    simp only [HvacService.HandleSignalChange, hk, if_true, String.reduceEq, if_false,
      Bool.false_eq_true]

/-- Each flag setter stores the value and sends one `Set` request for its
path exactly when the value differs from the stored flag. -/
theorem flag_setter_count (s : HvacService) (v : Bool) :
    ((HvacService.set_ac_active s v).1.m_IsAirConditioningActive = v ∧
      HvacService.set_count "Vehicle.Cabin.HVAC.IsAirConditioningActive"
          (HvacService.set_ac_active s v).2 =
        (if v = s.m_IsAirConditioningActive then 0 else 1)) ∧
    ((HvacService.set_front_defrost_active s v).1.m_IsFrontDefrosterActive = v ∧
      HvacService.set_count "Vehicle.Cabin.HVAC.IsFrontDefrosterActive"
          (HvacService.set_front_defrost_active s v).2 =
        (if v = s.m_IsFrontDefrosterActive then 0 else 1)) ∧
    ((HvacService.set_rear_defrost_active s v).1.m_IsRearDefrosterActive = v ∧
      HvacService.set_count "Vehicle.Cabin.HVAC.IsRearDefrosterActive"
          (HvacService.set_rear_defrost_active s v).2 =
        (if v = s.m_IsRearDefrosterActive then 0 else 1)) ∧
    ((HvacService.set_recirculation_active s v).1.m_IsRecirculationActive = v ∧
      HvacService.set_count "Vehicle.Cabin.HVAC.IsRecirculationActive"
          (HvacService.set_recirculation_active s v).2 =
        (if v = s.m_IsRecirculationActive then 0 else 1)) := by
  refine ⟨?_, ?_, ?_, ?_⟩
  · unfold HvacService.set_ac_active
    cases v <;> cases h : s.m_IsAirConditioningActive <;> simp [h] <;> rfl
  · unfold HvacService.set_front_defrost_active
    cases v <;> cases h : s.m_IsFrontDefrosterActive <;> simp [h] <;> rfl
  · unfold HvacService.set_rear_defrost_active
    cases v <;> cases h : s.m_IsRearDefrosterActive <;> simp [h] <;> rfl
  · unfold HvacService.set_recirculation_active
    cases v <;> cases h : s.m_IsRecirculationActive <;> simp [h] <;> rfl

/-- The state after a list of events followed by one more event is the state
after handling that event in the state reached by the list. -/
theorem dispatch_all_snoc (events : List Event) (e : Event) :
    ∀ s : HvacService,
      (HvacService.dispatch_all s (events ++ [e])).1 =
        (HvacService.HandleSignalChange (HvacService.dispatch_all s events).1 e.io e.path
          e.dp).1 := by
  induction events with
  | nil =>
    intro s
    rfl
  | cons x rest ih =>
    intro s
    rw [List.cons_append]
    unfold HvacService.dispatch_all
    exact ih _

/-- The state and the frames of `HvacService::set_fan_speed`: only the fan
byte of the CAN helper is replaced, and an active channel sends the frame of
the new state. -/
theorem service_set_fan_speed (s : HvacService) (io : IoEnv) (speed : Nat) :
    (HvacService.set_fan_speed s io speed).1.m_can_helper.m_fan_speed = scaled_fan_speed speed ∧
    (HvacService.set_fan_speed s io speed).1.m_can_helper.m_temp_left =
      s.m_can_helper.m_temp_left ∧
    (HvacService.set_fan_speed s io speed).1.m_can_helper.m_temp_right =
      s.m_can_helper.m_temp_right ∧
    (s.m_can_helper.m_active = true →
      (HvacService.set_fan_speed s io speed).2 =
        [Effect.can_send
          (build_frame { s.m_can_helper with m_fan_speed := scaled_fan_speed speed })]) := by
  obtain ⟨c1, c2, c3⟩ :=
    can_update_members { s.m_can_helper with m_fan_speed := scaled_fan_speed speed }
      io.can_send_ok
  refine ⟨c3, c1, c2, ?_⟩
  intro hact
  unfold HvacService.set_fan_speed HvacCanHelper.set_fan_speed HvacService.can_effects
  dsimp only
  rw [can_update_active { s.m_can_helper with m_fan_speed := scaled_fan_speed speed }
    io.can_send_ok hact]
  rfl

/-- The two embeddings of `led_update` agree: the state and the channel and
value of each insertion are those of `led_update` for the same open
outcomes. -/
theorem led_update_io_agrees (h : HvacLedHelper) (io : LedIo) :
    (HvacLedHelper.led_update_io h io).1 =
      (HvacLedHelper.led_update h ⟨io.red.is_open, io.green.is_open, io.blue.is_open⟩).1 ∧
    (HvacLedHelper.led_update_io h io).2.map (fun i => (i.channel, i.value)) =
      (HvacLedHelper.led_update h ⟨io.red.is_open, io.green.is_open, io.blue.is_open⟩).2 := by
  unfold HvacLedHelper.led_update_io HvacLedHelper.led_update
  cases h.m_config_valid <;> cases io.red.is_open <;> cases io.green.is_open <;>
    cases io.blue.is_open <;> exact ⟨rfl, rfl⟩

/-- A setter call on an invalid LED configuration makes no insertion and
leaves the configuration invalid, whatever the outcomes would be. -/
theorem led_call_io_invalid (h : HvacLedHelper) (c : HvacLedHelper.Call) (io : LedIo)
    (hin : h.m_config_valid = false) :
    (HvacLedHelper.call_io h c io).2 = [] ∧
    (HvacLedHelper.call_io h c io).1.m_config_valid = false := by
  cases c <;>
    simp [HvacLedHelper.call_io, HvacLedHelper.set_left_temperature_io,
      HvacLedHelper.set_right_temperature_io, HvacLedHelper.led_update_io, hin]

/-- A sequence of setter calls on an invalid LED configuration makes no
insertion. -/
theorem led_run_io_invalid (calls : List (HvacLedHelper.Call × LedIo)) :
    ∀ h : HvacLedHelper, h.m_config_valid = false →
      (HvacLedHelper.run_io h calls).2 = [] ∧
      (HvacLedHelper.run_io h calls).1.m_config_valid = false := by
  induction calls with
  | nil =>
    intro h hin
    exact ⟨rfl, hin⟩
  | cons c rest ih =>
    intro h hin
    obtain ⟨h1, h2⟩ := led_call_io_invalid h c.1 c.2 hin
    obtain ⟨h3, h4⟩ := ih _ h2
    unfold HvacLedHelper.run_io
    simp only [h1, h3, List.append_nil]
    exact ⟨trivial, h4⟩

/-- C1: on an active channel `can_update` hands `sendto` one frame with
identifier 0x30, length 8 and the eight data bytes
`[convert_temp left, convert_temp right, convert_temp ((left + right) >> 1),
0xF0, fan, 1, 0, 0]`, and each of the three setters sends this frame for the
state in which its own member is replaced by the new value. -/
theorem can_update_builds_spec_frame (h : HvacCanHelper) (send_ok : Bool)
    (hact : h.m_active = true) (hl : h.m_temp_left < 256) (hr : h.m_temp_right < 256) :
    (can_update h send_ok).2 = [spec_frame h.m_temp_left h.m_temp_right h.m_fan_speed] ∧
    (spec_frame h.m_temp_left h.m_temp_right h.m_fan_speed).can_id = 0x30 ∧
    (spec_frame h.m_temp_left h.m_temp_right h.m_fan_speed).can_dlc = 8 ∧
    (spec_frame h.m_temp_left h.m_temp_right h.m_fan_speed).data =
      [ convert_temp h.m_temp_left, convert_temp h.m_temp_right,
        convert_temp ((h.m_temp_left + h.m_temp_right) >>> 1), 0xF0, h.m_fan_speed, 1, 0, 0 ] ∧
    (spec_frame h.m_temp_left h.m_temp_right h.m_fan_speed).data.length = 8 ∧
    (∀ t, t < 256 →
      (set_left_temperature h t send_ok).2 = [spec_frame t h.m_temp_right h.m_fan_speed]) ∧
    (∀ t, t < 256 →
      (set_right_temperature h t send_ok).2 = [spec_frame h.m_temp_left t h.m_fan_speed]) ∧
    (∀ speed,
      (set_fan_speed h speed send_ok).2 =
        [spec_frame h.m_temp_left h.m_temp_right (scaled_fan_speed speed)]) := by
  refine ⟨?_, rfl, rfl, rfl, rfl, ?_, ?_, ?_⟩
  · rw [can_update_active h send_ok hact, build_frame_eq h hl hr]
  · intro t ht
    unfold set_left_temperature
    rw [can_update_active { h with m_temp_left := t } send_ok hact]
    exact congrArg (fun f => [f]) (build_frame_eq { h with m_temp_left := t } ht hr)
  · intro t ht
    unfold set_right_temperature
    rw [can_update_active { h with m_temp_right := t } send_ok hact]
    exact congrArg (fun f => [f]) (build_frame_eq { h with m_temp_right := t } hl ht)
  · intro speed
    unfold set_fan_speed
    rw [can_update_active { h with m_fan_speed := scaled_fan_speed speed } send_ok hact]
    exact congrArg (fun f => [f])
      (build_frame_eq { h with m_fan_speed := scaled_fan_speed speed } hl hr)

/-- Witness of C1: the frame sent for left 21, right 25 and fan byte 128. -/
theorem can_update_builds_spec_frame_witness :
    (can_update ⟨true, 21, 25, 128⟩ true).2 =
      [⟨0x30, 8, [0x64, 0x9C, 0x80, 0xF0, 128, 1, 0, 0]⟩] :=
  (can_update_builds_spec_frame ⟨true, 21, 25, 128⟩ true rfl (by decide) (by decide)).1

/-- C2, evaluated on the code: `convert_temp 15` is 0x10, and `convert_temp 30`
is 0xE2, not 0xF0, because the slope `(0xF0 - 0x10) / 15` is the integer 14;
the first input converted to 0xF0 is 31. -/
theorem convert_temp_endpoints :
    convert_temp 15 = 0x10 ∧ convert_temp 30 = 0xE2 ∧ convert_temp 30 ≠ 0xF0 ∧
      convert_temp 31 = 0xF0 := by
  simp [convert_temp_eq]

/-- C3: for every 8-bit input `convert_temp` lies in `[0x10, 0xF0]`, every
input below 15 gives 0x10 and every input above 30 gives 0xF0. -/
theorem convert_temp_clamps (v : Nat) (hv : v < 256) :
    (0x10 ≤ convert_temp v ∧ convert_temp v ≤ 0xF0) ∧
    (v < 15 → convert_temp v = 0x10) ∧
    (30 < v → convert_temp v = 0xF0) := by
  rw [convert_temp_eq]
  refine ⟨?_, ?_, ?_⟩
  · split_ifs <;> omega
  · intro h
    simp [h]
  · intro h
    have h1 : ¬ v < 15 := by omega
    have h2 : 31 ≤ v := by omega
    simp [h1, h2]

/-- Witness of C3: the inputs 0 and 255, the extremes of the 8-bit range. -/
theorem convert_temp_clamps_witness : convert_temp 0 = 0x10 ∧ convert_temp 255 = 0xF0 :=
  ⟨(convert_temp_clamps 0 (by decide)).2.1 (by decide),
   (convert_temp_clamps 255 (by decide)).2.2 (by decide)⟩

/-- C4: `convert_temp` is monotonic non-decreasing on all 8-bit inputs, in
particular on `[15, 30]`. -/
theorem convert_temp_monotone (a b : Nat) (hab : a ≤ b) (hb : b < 256) :
    convert_temp a ≤ convert_temp b := by
  rw [convert_temp_eq, convert_temp_eq]
  split_ifs <;> omega

/-- Witness of C4: the inputs 20 and 21. -/
theorem convert_temp_monotone_witness : convert_temp 20 ≤ convert_temp 21 :=
  convert_temp_monotone 20 21 (by decide) (by decide)

/-- C5: for every fan-speed input `s` in `0..100`, `set_fan_speed` stores
`floor (s * 255 / 100 + 1 / 2)`, a value in `0..255`; the inputs 0, 50 and
100 are stored as 0, 128 and 255. -/
theorem set_fan_speed_stores_rounded (h : HvacCanHelper) (send_ok : Bool) (s : Nat)
    (hs : s ≤ 100) :
    (set_fan_speed h s send_ok).1.m_fan_speed = (s * 255 * 2 + 100) / (100 * 2) ∧
    (set_fan_speed h s send_ok).1.m_fan_speed ≤ 255 ∧
    (set_fan_speed h 0 send_ok).1.m_fan_speed = 0 ∧
    (set_fan_speed h 50 send_ok).1.m_fan_speed = 128 ∧
    (set_fan_speed h 100 send_ok).1.m_fan_speed = 255 := by
  have key : ∀ n, (set_fan_speed h n send_ok).1.m_fan_speed = scaled_fan_speed n := by
    intro n
    unfold set_fan_speed can_update
    cases send_ok <;> cases h.m_active <;> simp
  rw [key, key, key, key, scaled_fan_speed_eq s hs, scaled_fan_speed_eq 0 (by decide),
    scaled_fan_speed_eq 50 (by decide), scaled_fan_speed_eq 100 (by decide)]
  refine ⟨rfl, ?_, by decide, by decide, by decide⟩
  omega

/-- Witness of C5: the input 50 on a freshly constructed active helper. -/
theorem set_fan_speed_stores_rounded_witness :
    (set_fan_speed (HvacCanHelper.init true) 50 true).1.m_fan_speed = 128 :=
  (set_fan_speed_stores_rounded (HvacCanHelper.init true) true 50 (by decide)).2.2.2.1

/-- C6: for all left and right temperatures, `led_update` takes the table
rows at the indices `clamp (left - 15) 0 15` and `clamp (right - 15) 0 15`,
both inside the 16-entry table, and computes for each channel the
integer-division average of the two entries, a value in `0..255`; with a
valid configuration and writable files these three values are written. For
left 15 and right 30 the values are `(100, 0, 117)`, the averages of
`(0, 0, 229)` and `(201, 0, 5)`. -/
theorem led_update_averages (h : HvacLedHelper) (hv : h.m_config_valid = true) :
    degree_colours.length = 16 ∧
    (∃ a b : degree_colour,
      degree_colours[(max 0 (min 15 ((h.m_temp_left : Int) - 15))).toNat]? = some a ∧
      degree_colours[(max 0 (min 15 ((h.m_temp_right : Int) - 15))).toNat]? = some b ∧
      (max 0 (min 15 ((h.m_temp_left : Int) - 15))).toNat < 16 ∧
      (max 0 (min 15 ((h.m_temp_right : Int) - 15))).toNat < 16 ∧
      HvacLedHelper.led_values h =
        ((a.rgb.1 + b.rgb.1) / 2, (a.rgb.2.1 + b.rgb.2.1) / 2, (a.rgb.2.2 + b.rgb.2.2) / 2) ∧
      HvacLedHelper.led_update h ⟨true, true, true⟩ =
        (h, [ (LedChannel.red, (a.rgb.1 + b.rgb.1) / 2),
              (LedChannel.green, (a.rgb.2.1 + b.rgb.2.1) / 2),
              (LedChannel.blue, (a.rgb.2.2 + b.rgb.2.2) / 2) ])) ∧
    (0 ≤ (HvacLedHelper.led_values h).1 ∧ (HvacLedHelper.led_values h).1 ≤ 255) ∧
    (0 ≤ (HvacLedHelper.led_values h).2.1 ∧ (HvacLedHelper.led_values h).2.1 ≤ 255) ∧
    (0 ≤ (HvacLedHelper.led_values h).2.2 ∧ (HvacLedHelper.led_values h).2.2 ≤ 255) ∧
    degree_colours[0]? = some ⟨15, (0, 0, 229)⟩ ∧
    degree_colours[15]? = some ⟨30, (201, 0, 5)⟩ ∧
    HvacLedHelper.led_values ⟨true, 15, 30⟩ = (100, 0, 117) ∧
    HvacLedHelper.led_update ⟨true, 15, 30⟩ ⟨true, true, true⟩ =
      (⟨true, 15, 30⟩, [(LedChannel.red, 100), (LedChannel.green, 0), (LedChannel.blue, 117)]) := by
  obtain ⟨hi, hi0, hilt⟩ := led_index_in_table h.m_temp_left
  obtain ⟨hj, hj0, hjlt⟩ := led_index_in_table h.m_temp_right
  have hlen : degree_colours.length = 16 := rfl
  rw [hlen] at hilt hjlt
  obtain ⟨a, ha, hra, ha1, ha2, ha3⟩ := degree_colours_bounds _ hilt
  obtain ⟨b, hb, hrb, hb1, hb2, hb3⟩ := degree_colours_bounds _ hjlt
  rw [Int.toNat_of_nonneg hi0] at hra
  rw [Int.toNat_of_nonneg hj0] at hrb
  have hval : HvacLedHelper.led_values h =
      ((a.rgb.1 + b.rgb.1) / 2, (a.rgb.2.1 + b.rgb.2.1) / 2, (a.rgb.2.2 + b.rgb.2.2) / 2) := by
    unfold HvacLedHelper.led_values
    simp only [hra, hrb]
    rw [Int.tdiv_eq_ediv (by omega) (by decide), Int.tdiv_eq_ediv (by omega) (by decide),
      Int.tdiv_eq_ediv (by omega) (by decide)]
  refine ⟨rfl, ⟨a, b, ?_, ?_, ?_, ?_, hval, ?_⟩, ?_, ?_, ?_, rfl, rfl, by decide, by decide⟩
  · rw [← hi]; exact ha
  · rw [← hj]; exact hb
  · rw [← hi]; exact hilt
  · rw [← hj]; exact hjlt
  · rw [led_update_all_open h hv, hval]
  · rw [hval]; dsimp only; constructor <;> omega
  · rw [hval]; dsimp only; constructor <;> omega
  · rw [hval]; dsimp only; constructor <;> omega

/-- Witness of C6: the temperatures 15 and 30 on a valid configuration. -/
theorem led_update_averages_witness :
    0 ≤ (HvacLedHelper.led_values ⟨true, 15, 30⟩).1 ∧
      (HvacLedHelper.led_values ⟨true, 15, 30⟩).1 ≤ 255 :=
  (led_update_averages ⟨true, 15, 30⟩ rfl).2.2.1

/-- C7: for every `int32` value `v` with `0 ≤ v ≤ 255`, `HandleSignalChange`
on the `Driver.Temperature` path stores `v` as the left temperature of both
the CAN helper and the LED helper and leaves the right temperatures, the fan
byte and the four flags as they were; on the `Passenger.Temperature` path it
does the same for the right temperature and leaves the left one. -/
theorem HandleSignalChange_sets_temperature (s : HvacService) (io : IoEnv) (v : Int)
    (h0 : 0 ≤ v) (h255 : v ≤ 255) :
    (((HvacService.HandleSignalChange s io
          "Vehicle.Cabin.HVAC.Station.Row1.Driver.Temperature"
          (Datapoint.kInt32 v)).1.m_can_helper.m_temp_left : Int) = v ∧
      ((HvacService.HandleSignalChange s io
          "Vehicle.Cabin.HVAC.Station.Row1.Driver.Temperature"
          (Datapoint.kInt32 v)).1.m_led_helper.m_temp_left : Int) = v ∧
      (HvacService.HandleSignalChange s io
          "Vehicle.Cabin.HVAC.Station.Row1.Driver.Temperature"
          (Datapoint.kInt32 v)).1.m_can_helper.m_temp_right = s.m_can_helper.m_temp_right ∧
      (HvacService.HandleSignalChange s io
          "Vehicle.Cabin.HVAC.Station.Row1.Driver.Temperature"
          (Datapoint.kInt32 v)).1.m_led_helper.m_temp_right = s.m_led_helper.m_temp_right ∧
      (HvacService.HandleSignalChange s io
          "Vehicle.Cabin.HVAC.Station.Row1.Driver.Temperature"
          (Datapoint.kInt32 v)).1.m_can_helper.m_fan_speed = s.m_can_helper.m_fan_speed ∧
      (HvacService.HandleSignalChange s io
          "Vehicle.Cabin.HVAC.Station.Row1.Driver.Temperature"
          (Datapoint.kInt32 v)).1.m_IsAirConditioningActive = s.m_IsAirConditioningActive ∧
      (HvacService.HandleSignalChange s io
          "Vehicle.Cabin.HVAC.Station.Row1.Driver.Temperature"
          (Datapoint.kInt32 v)).1.m_IsFrontDefrosterActive = s.m_IsFrontDefrosterActive ∧
      (HvacService.HandleSignalChange s io
          "Vehicle.Cabin.HVAC.Station.Row1.Driver.Temperature"
          (Datapoint.kInt32 v)).1.m_IsRearDefrosterActive = s.m_IsRearDefrosterActive ∧
      (HvacService.HandleSignalChange s io
          "Vehicle.Cabin.HVAC.Station.Row1.Driver.Temperature"
          (Datapoint.kInt32 v)).1.m_IsRecirculationActive = s.m_IsRecirculationActive) ∧
    (((HvacService.HandleSignalChange s io
          "Vehicle.Cabin.HVAC.Station.Row1.Passenger.Temperature"
          (Datapoint.kInt32 v)).1.m_can_helper.m_temp_right : Int) = v ∧
      ((HvacService.HandleSignalChange s io
          "Vehicle.Cabin.HVAC.Station.Row1.Passenger.Temperature"
          (Datapoint.kInt32 v)).1.m_led_helper.m_temp_right : Int) = v ∧
      (HvacService.HandleSignalChange s io
          "Vehicle.Cabin.HVAC.Station.Row1.Passenger.Temperature"
          (Datapoint.kInt32 v)).1.m_can_helper.m_temp_left = s.m_can_helper.m_temp_left ∧
      (HvacService.HandleSignalChange s io
          "Vehicle.Cabin.HVAC.Station.Row1.Passenger.Temperature"
          (Datapoint.kInt32 v)).1.m_led_helper.m_temp_left = s.m_led_helper.m_temp_left ∧
      (HvacService.HandleSignalChange s io
          "Vehicle.Cabin.HVAC.Station.Row1.Passenger.Temperature"
          (Datapoint.kInt32 v)).1.m_can_helper.m_fan_speed = s.m_can_helper.m_fan_speed ∧
      (HvacService.HandleSignalChange s io
          "Vehicle.Cabin.HVAC.Station.Row1.Passenger.Temperature"
          (Datapoint.kInt32 v)).1.m_IsAirConditioningActive = s.m_IsAirConditioningActive ∧
      (HvacService.HandleSignalChange s io
          "Vehicle.Cabin.HVAC.Station.Row1.Passenger.Temperature"
          (Datapoint.kInt32 v)).1.m_IsFrontDefrosterActive = s.m_IsFrontDefrosterActive ∧
      (HvacService.HandleSignalChange s io
          "Vehicle.Cabin.HVAC.Station.Row1.Passenger.Temperature"
          (Datapoint.kInt32 v)).1.m_IsRearDefrosterActive = s.m_IsRearDefrosterActive ∧
      (HvacService.HandleSignalChange s io
          "Vehicle.Cabin.HVAC.Station.Row1.Passenger.Temperature"
          (Datapoint.kInt32 v)).1.m_IsRecirculationActive = s.m_IsRecirculationActive) := by
  rw [HandleSignalChange_driver_temperature s io v h0 h255,
    HandleSignalChange_passenger_temperature s io v h0 h255]
  have hv : ((v.toNat : Nat) : Int) = v := Int.toNat_of_nonneg h0
  constructor
  · obtain ⟨c1, c2, c3⟩ :=
      can_update_members { s.m_can_helper with m_temp_left := v.toNat } io.can_send_ok
    obtain ⟨l1, l2⟩ :=
      led_update_members { s.m_led_helper with m_temp_left := v.toNat } io.led
    refine ⟨?_, ?_, c2, l2, c3, rfl, rfl, rfl, rfl⟩
    · exact (congrArg (fun n : Nat => (n : Int)) c1).trans hv
    · exact (congrArg (fun n : Nat => (n : Int)) l1).trans hv
  · obtain ⟨c1, c2, c3⟩ :=
      can_update_members { s.m_can_helper with m_temp_right := v.toNat } io.can_send_ok
    obtain ⟨l1, l2⟩ :=
      led_update_members { s.m_led_helper with m_temp_right := v.toNat } io.led
    refine ⟨?_, ?_, c1, l1, c3, rfl, rfl, rfl, rfl⟩
    · exact (congrArg (fun n : Nat => (n : Int)) c2).trans hv
    · exact (congrArg (fun n : Nat => (n : Int)) l2).trans hv

/-- Witness of C7: the value 23 on the driver path of a freshly constructed
service. -/
theorem HandleSignalChange_sets_temperature_witness :
    ((HvacService.HandleSignalChange (HvacService.init true true) ⟨true, ⟨true, true, true⟩⟩
        "Vehicle.Cabin.HVAC.Station.Row1.Driver.Temperature"
        (Datapoint.kInt32 23)).1.m_can_helper.m_temp_left : Int) = 23 :=
  (HandleSignalChange_sets_temperature (HvacService.init true true)
    ⟨true, ⟨true, true, true⟩⟩ 23 (by decide) (by decide)).1.1

/-- C8: an out-of-range numeric update has no effect at all. A temperature
`int32` value below 0 or above 255, on either temperature path, and a
fan-speed `uint32` value above 100 (150, and also values from `2^31` on), on
either fan-speed path, leave the whole state as it was and produce no effect:
no CAN frame, no LED write, no `Set` request. -/
theorem HandleSignalChange_drops_out_of_range (s : HvacService) (io : IoEnv) :
    (∀ v : Int, v < 0 ∨ 255 < v →
      HvacService.HandleSignalChange s io
          "Vehicle.Cabin.HVAC.Station.Row1.Driver.Temperature" (Datapoint.kInt32 v) = (s, []) ∧
      HvacService.HandleSignalChange s io
          "Vehicle.Cabin.HVAC.Station.Row1.Passenger.Temperature" (Datapoint.kInt32 v) =
        (s, [])) ∧
    (∀ u : Nat, 100 < u → u < 2 ^ 32 →
      HvacService.HandleSignalChange s io
          "Vehicle.Cabin.HVAC.Station.Row1.Driver.FanSpeed" (Datapoint.kUint32 u) = (s, []) ∧
      HvacService.HandleSignalChange s io
          "Vehicle.Cabin.HVAC.Station.Row1.Passenger.FanSpeed" (Datapoint.kUint32 u) =
        (s, [])) ∧
    HvacService.HandleSignalChange s io
        "Vehicle.Cabin.HVAC.Station.Row1.Driver.FanSpeed" (Datapoint.kUint32 150) = (s, []) ∧
    HvacService.HandleSignalChange s io
        "Vehicle.Cabin.HVAC.Station.Row1.Passenger.FanSpeed" (Datapoint.kUint32 150) = (s, []) ∧
    HvacService.HandleSignalChange s io
        "Vehicle.Cabin.HVAC.Station.Row1.Driver.FanSpeed" (Datapoint.kUint32 (2 ^ 31)) =
      (s, []) ∧
    HvacService.HandleSignalChange s io
        "Vehicle.Cabin.HVAC.Station.Row1.Driver.FanSpeed" (Datapoint.kUint32 (2 ^ 32 - 1)) =
      (s, []) := by
  have temp : ∀ v : Int, v < 0 ∨ 255 < v → ¬ (v ≥ 0 ∧ v < 256) := by
    intro v hv
    omega
  have fan : ∀ u : Nat, 100 < u → u < 2 ^ 32 →
      ¬ (uint32ToInt u ≥ 0 ∧ uint32ToInt u ≤ 100) := by
    intro u h1 h2
    unfold uint32ToInt
    have hm : u % 2 ^ 32 = u := Nat.mod_eq_of_lt h2
    rw [hm]
    split_ifs <;> omega
  have fans : ∀ u : Nat, 100 < u → u < 2 ^ 32 →
      HvacService.HandleSignalChange s io
          "Vehicle.Cabin.HVAC.Station.Row1.Driver.FanSpeed" (Datapoint.kUint32 u) = (s, []) ∧
      HvacService.HandleSignalChange s io
          "Vehicle.Cabin.HVAC.Station.Row1.Passenger.FanSpeed" (Datapoint.kUint32 u) =
        (s, []) := by
    intro u h1 h2
    have hf := fan u h1 h2
    constructor <;>
      simp only [HvacService.HandleSignalChange, Datapoint.has_uint32, Datapoint.uint32,
        if_true, if_neg hf, String.reduceEq, if_false]
  refine ⟨?_, fans, (fans 150 (by decide) (by decide)).1, (fans 150 (by decide) (by decide)).2,
    (fans (2 ^ 31) (by decide) (by decide)).1, (fans (2 ^ 32 - 1) (by decide) (by decide)).1⟩
  intro v hv
  have ht := temp v hv
  constructor <;>
    simp only [HvacService.HandleSignalChange, Datapoint.has_int32, Datapoint.int32,
      if_true, if_neg ht, String.reduceEq, if_false]

/-- Witness of C8: the temperature -1 on the driver path and the fan speed
`2^31` on the passenger path of a freshly constructed service. -/
theorem HandleSignalChange_drops_out_of_range_witness :
    HvacService.HandleSignalChange (HvacService.init true true) ⟨true, ⟨true, true, true⟩⟩
        "Vehicle.Cabin.HVAC.Station.Row1.Driver.Temperature" (Datapoint.kInt32 (-1)) =
      (HvacService.init true true, []) ∧
    HvacService.HandleSignalChange (HvacService.init true true) ⟨true, ⟨true, true, true⟩⟩
        "Vehicle.Cabin.HVAC.Station.Row1.Passenger.FanSpeed" (Datapoint.kUint32 (2 ^ 31)) =
      (HvacService.init true true, []) :=
  ⟨((HandleSignalChange_drops_out_of_range (HvacService.init true true)
      ⟨true, ⟨true, true, true⟩⟩).1 (-1) (Or.inl (by decide))).1,
   ((HandleSignalChange_drops_out_of_range (HvacService.init true true)
      ⟨true, ⟨true, true, true⟩⟩).2.1 (2 ^ 31) (by decide) (by decide)).2⟩

/-- C9: on each of the eight recognised paths a Datapoint whose populated
kind is not the expected one (`int32` for the temperatures, `uint32` for the
fan speeds, `bool` for the four flags) leaves the state as it was and
produces no effect; this holds for a string Datapoint on `Driver.Temperature`
and, on every path, for a Datapoint with nothing populated. -/
theorem HandleSignalChange_drops_wrong_kind (s : HvacService) (io : IoEnv) (dp : Datapoint) :
    ((∀ v, dp ≠ Datapoint.kInt32 v) →
      HvacService.HandleSignalChange s io
          "Vehicle.Cabin.HVAC.Station.Row1.Driver.Temperature" dp = (s, []) ∧
      HvacService.HandleSignalChange s io
          "Vehicle.Cabin.HVAC.Station.Row1.Passenger.Temperature" dp = (s, [])) ∧
    ((∀ v, dp ≠ Datapoint.kUint32 v) →
      HvacService.HandleSignalChange s io
          "Vehicle.Cabin.HVAC.Station.Row1.Driver.FanSpeed" dp = (s, []) ∧
      HvacService.HandleSignalChange s io
          "Vehicle.Cabin.HVAC.Station.Row1.Passenger.FanSpeed" dp = (s, [])) ∧
    ((∀ v, dp ≠ Datapoint.kBool v) →
      HvacService.HandleSignalChange s io "Vehicle.Cabin.HVAC.IsAirConditioningActive" dp =
        (s, []) ∧
      HvacService.HandleSignalChange s io "Vehicle.Cabin.HVAC.IsFrontDefrosterActive" dp =
        (s, []) ∧
      HvacService.HandleSignalChange s io "Vehicle.Cabin.HVAC.IsRearDefrosterActive" dp =
        (s, []) ∧
      HvacService.HandleSignalChange s io "Vehicle.Cabin.HVAC.IsRecirculationActive" dp =
        (s, [])) ∧
    (∀ str : String,
      HvacService.HandleSignalChange s io
          "Vehicle.Cabin.HVAC.Station.Row1.Driver.Temperature" (Datapoint.kString str) =
        (s, [])) ∧
    (∀ path : String,
      HvacService.HandleSignalChange s io path Datapoint.VALUE_NOT_SET = (s, [])) := by
  refine ⟨?_, ?_, ?_, ?_, ?_⟩
  · intro h
    have hk : dp.has_int32 = false := by
      cases dp <;> first | rfl | exact absurd rfl (h _)
    constructor <;>
      simp only [HvacService.HandleSignalChange, hk, if_true, String.reduceEq, if_false,
        Bool.false_eq_true]
  · intro h
    have hk : dp.has_uint32 = false := by
      cases dp <;> first | rfl | exact absurd rfl (h _)
    constructor <;>
      simp only [HvacService.HandleSignalChange, hk, if_true, String.reduceEq, if_false,
        Bool.false_eq_true]
  · intro h
    have hk : dp.has_bool_ = false := by
      cases dp <;> first | rfl | exact absurd rfl (h _)
    refine ⟨?_, ?_, ?_, ?_⟩ <;>
      simp only [HvacService.HandleSignalChange, hk, if_true, String.reduceEq, if_false,
        Bool.false_eq_true]
  · intro str
    simp only [HvacService.HandleSignalChange, Datapoint.has_int32, if_true,
      Bool.false_eq_true, if_false]
  · intro path
    simp only [HvacService.HandleSignalChange, Datapoint.has_int32, Datapoint.has_uint32,
      Datapoint.has_bool_, Bool.false_eq_true, if_false, ite_self]

/-- Witness of C9: a `uint32` Datapoint on the driver temperature path and a
string Datapoint on the air-conditioning flag path. -/
theorem HandleSignalChange_drops_wrong_kind_witness :
    HvacService.HandleSignalChange (HvacService.init true true) ⟨true, ⟨true, true, true⟩⟩
        "Vehicle.Cabin.HVAC.Station.Row1.Driver.Temperature" (Datapoint.kUint32 22) =
      (HvacService.init true true, []) ∧
    HvacService.HandleSignalChange (HvacService.init true true) ⟨true, ⟨true, true, true⟩⟩
        "Vehicle.Cabin.HVAC.IsAirConditioningActive" (Datapoint.kString "true") =
      (HvacService.init true true, []) :=
  ⟨((HandleSignalChange_drops_wrong_kind (HvacService.init true true)
      ⟨true, ⟨true, true, true⟩⟩ (Datapoint.kUint32 22)).1
        (fun _ h => Datapoint.noConfusion h)).1,
   ((HandleSignalChange_drops_wrong_kind (HvacService.init true true)
      ⟨true, ⟨true, true, true⟩⟩ (Datapoint.kString "true")).2.2.1
        (fun _ h => Datapoint.noConfusion h)).1⟩

/-- C10: every accepted temperature update (`int32` value in `0..255`) and
every accepted fan-speed update (`uint32` value in `0..100`) sends the broker
exactly one `Set` request, with one update for the same path that carries the
same value in the current-value field of the entry (the actuator-target field
stays empty, the field list is `FIELD_VALUE`), as an `int32` Datapoint for a
temperature and as a `uint32` Datapoint for a fan speed. The state before the
update is arbitrary: this holds when the value repeats the stored one and
when the CAN channel is inactive. -/
theorem accepted_update_sends_one_set (s : HvacService) (io : IoEnv) :
    (∀ v : Int, 0 ≤ v → v ≤ 255 →
      HvacService.broker_sets
          (HvacService.HandleSignalChange s io
            "Vehicle.Cabin.HVAC.Station.Row1.Driver.Temperature" (Datapoint.kInt32 v)).2 =
        [ { updates :=
              [ { entry := some
                    { path := "Vehicle.Cabin.HVAC.Station.Row1.Driver.Temperature"
                      value := some (Datapoint.kInt32 v)
                      actuator_target := none }
                  fields := [Field.FIELD_VALUE] } ] } ] ∧
      HvacService.broker_sets
          (HvacService.HandleSignalChange s io
            "Vehicle.Cabin.HVAC.Station.Row1.Passenger.Temperature" (Datapoint.kInt32 v)).2 =
        [ { updates :=
              [ { entry := some
                    { path := "Vehicle.Cabin.HVAC.Station.Row1.Passenger.Temperature"
                      value := some (Datapoint.kInt32 v)
                      actuator_target := none }
                  fields := [Field.FIELD_VALUE] } ] } ]) ∧
    (∀ u : Nat, u ≤ 100 →
      HvacService.broker_sets
          (HvacService.HandleSignalChange s io
            "Vehicle.Cabin.HVAC.Station.Row1.Driver.FanSpeed" (Datapoint.kUint32 u)).2 =
        [ { updates :=
              [ { entry := some
                    { path := "Vehicle.Cabin.HVAC.Station.Row1.Driver.FanSpeed"
                      value := some (Datapoint.kUint32 u)
                      actuator_target := none }
                  fields := [Field.FIELD_VALUE] } ] } ] ∧
      HvacService.broker_sets
          (HvacService.HandleSignalChange s io
            "Vehicle.Cabin.HVAC.Station.Row1.Passenger.FanSpeed" (Datapoint.kUint32 u)).2 =
        [ { updates :=
              [ { entry := some
                    { path := "Vehicle.Cabin.HVAC.Station.Row1.Passenger.FanSpeed"
                      value := some (Datapoint.kUint32 u)
                      actuator_target := none }
                  fields := [Field.FIELD_VALUE] } ] } ]) := by
  constructor
  · intro v h0 h255
    have hv : ((v.toNat : Nat) : Int) = v := Int.toNat_of_nonneg h0
    rw [HandleSignalChange_driver_temperature s io v h0 h255,
      HandleSignalChange_passenger_temperature s io v h0 h255,
      broker_sets_set_left_temperature, broker_sets_set_right_temperature, hv]
    exact ⟨rfl, rfl⟩
  · intro u hu
    rw [HandleSignalChange_driver_fan_speed s io u hu,
      HandleSignalChange_passenger_fan_speed s io u hu,
      broker_sets_set_left_fan_speed, broker_sets_set_right_fan_speed]
    exact ⟨rfl, rfl⟩

/-- Witness of C10: the temperature 21, equal to the stored one, on the
driver path of a freshly constructed service whose CAN channel is inactive;
the `Set` request is the only effect besides the LED writes. -/
theorem accepted_update_sends_one_set_witness :
    HvacService.broker_sets
        (HvacService.HandleSignalChange (HvacService.init false true)
          ⟨true, ⟨true, true, true⟩⟩
          "Vehicle.Cabin.HVAC.Station.Row1.Driver.Temperature" (Datapoint.kInt32 21)).2 =
      [ { updates :=
            [ { entry := some
                  { path := "Vehicle.Cabin.HVAC.Station.Row1.Driver.Temperature"
                    value := some (Datapoint.kInt32 21)
                    actuator_target := none }
                fields := [Field.FIELD_VALUE] } ] } ] :=
  ((accepted_update_sends_one_set (HvacService.init false true) ⟨true, ⟨true, true, true⟩⟩).1
    21 (by decide) (by decide)).1

/-- C11: each of the four flag setters sends its `Set` request exactly when
the new value differs from the stored flag, and stores the new value; a
second call with the same value sends nothing. All four flags are false
after construction, and the calls `true`, `true` on a fresh service send one
request and then none. -/
theorem flag_setter_reports_change (s : HvacService) (v : Bool) :
    ((HvacService.set_ac_active s v).2 =
        (if v = s.m_IsAirConditioningActive then []
         else [Effect.broker_set
                (KuksaClient.set_bool "Vehicle.Cabin.HVAC.IsAirConditioningActive" v false)]) ∧
      ((HvacService.set_ac_active s v).2 ≠ [] ↔ v ≠ s.m_IsAirConditioningActive) ∧
      (HvacService.set_ac_active s v).1.m_IsAirConditioningActive = v ∧
      (HvacService.set_ac_active (HvacService.set_ac_active s v).1 v).2 = []) ∧
    ((HvacService.set_front_defrost_active s v).2 =
        (if v = s.m_IsFrontDefrosterActive then []
         else [Effect.broker_set
                (KuksaClient.set_bool "Vehicle.Cabin.HVAC.IsFrontDefrosterActive" v false)]) ∧
      ((HvacService.set_front_defrost_active s v).2 ≠ [] ↔ v ≠ s.m_IsFrontDefrosterActive) ∧
      (HvacService.set_front_defrost_active s v).1.m_IsFrontDefrosterActive = v ∧
      (HvacService.set_front_defrost_active
        (HvacService.set_front_defrost_active s v).1 v).2 = []) ∧
    ((HvacService.set_rear_defrost_active s v).2 =
        (if v = s.m_IsRearDefrosterActive then []
         else [Effect.broker_set
                (KuksaClient.set_bool "Vehicle.Cabin.HVAC.IsRearDefrosterActive" v false)]) ∧
      ((HvacService.set_rear_defrost_active s v).2 ≠ [] ↔ v ≠ s.m_IsRearDefrosterActive) ∧
      (HvacService.set_rear_defrost_active s v).1.m_IsRearDefrosterActive = v ∧
      (HvacService.set_rear_defrost_active
        (HvacService.set_rear_defrost_active s v).1 v).2 = []) ∧
    ((HvacService.set_recirculation_active s v).2 =
        (if v = s.m_IsRecirculationActive then []
         else [Effect.broker_set
                (KuksaClient.set_bool "Vehicle.Cabin.HVAC.IsRecirculationActive" v false)]) ∧
      ((HvacService.set_recirculation_active s v).2 ≠ [] ↔ v ≠ s.m_IsRecirculationActive) ∧
      (HvacService.set_recirculation_active s v).1.m_IsRecirculationActive = v ∧
      (HvacService.set_recirculation_active
        (HvacService.set_recirculation_active s v).1 v).2 = []) ∧
    (∀ can_active led_valid : Bool,
      (HvacService.init can_active led_valid).m_IsAirConditioningActive = false ∧
      (HvacService.init can_active led_valid).m_IsFrontDefrosterActive = false ∧
      (HvacService.init can_active led_valid).m_IsRearDefrosterActive = false ∧
      (HvacService.init can_active led_valid).m_IsRecirculationActive = false ∧
      (HvacService.set_ac_active (HvacService.init can_active led_valid) true).2 =
        [Effect.broker_set
          (KuksaClient.set_bool "Vehicle.Cabin.HVAC.IsAirConditioningActive" true false)] ∧
      (HvacService.set_ac_active
        (HvacService.set_ac_active (HvacService.init can_active led_valid) true).1 true).2 =
        []) := by
  refine ⟨?_, ?_, ?_, ?_, ?_⟩
  · unfold HvacService.set_ac_active
    cases v <;> cases h : s.m_IsAirConditioningActive <;> simp [h]
  · unfold HvacService.set_front_defrost_active
    cases v <;> cases h : s.m_IsFrontDefrosterActive <;> simp [h]
  · unfold HvacService.set_rear_defrost_active
    cases v <;> cases h : s.m_IsRearDefrosterActive <;> simp [h]
  · unfold HvacService.set_recirculation_active
    cases v <;> cases h : s.m_IsRecirculationActive <;> simp [h]
  · intro can_active led_valid
    exact ⟨rfl, rfl, rfl, rfl, rfl, rfl⟩

/-- C14: for every temperature `t` and fan byte `f`, the frame for
`left = right = t` has `byte2 = byte0 = byte1 = convert_temp t`, `byte3 = 0xF0`,
`byte4 = f` and `byte5 = 1`; for left 21, right 21 and the fan-speed input 50
the frame sent is `[0x64, 0x64, 0x64, 0xF0, 128, 1, 0, 0]`. -/
theorem equal_temperatures_frame (t f : Nat) (send_ok : Bool) (ht : t < 256) :
    (can_update ⟨true, t, t, f⟩ send_ok).2 =
      [ { can_id := 0x30
          can_dlc := 8
          data := [convert_temp t, convert_temp t, convert_temp t, 0xF0, f, 1, 0, 0] } ] ∧
    (set_fan_speed ⟨true, 21, 21, 0⟩ 50 send_ok).2 =
      [ { can_id := 0x30
          can_dlc := 8
          data := [0x64, 0x64, 0x64, 0xF0, 128, 1, 0, 0] } ] := by
  have havg : (t + t) >>> 1 = t := by
    rw [Nat.shiftRight_eq_div_pow]
    omega
  constructor
  · rw [can_update_active ⟨true, t, t, f⟩ send_ok rfl, build_frame_eq ⟨true, t, t, f⟩ ht ht]
    unfold spec_frame
    simp only [havg]
  · unfold set_fan_speed
    rw [can_update_active _ send_ok rfl, scaled_fan_speed_eq 50 (by decide)]
    rfl

/-- Witness of C14: left 21, right 21 and the fan byte 128. -/
theorem equal_temperatures_frame_witness :
    (can_update ⟨true, 21, 21, 128⟩ true).2 =
      [ { can_id := 0x30
          can_dlc := 8
          data := [0x64, 0x64, 0x64, 0xF0, 128, 1, 0, 0] } ] :=
  (equal_temperatures_frame 21 128 true (by decide)).1

/-- C15: for all 8-bit left and right temperatures the average byte of the
frame lies between the left byte and the right byte. -/
theorem average_byte_between (h : HvacCanHelper) (send_ok : Bool) (hact : h.m_active = true)
    (hl : h.m_temp_left < 256) (hr : h.m_temp_right < 256) :
    ∃ byte0 byte1 byte2 rest,
      (can_update h send_ok).2 = [ { can_id := 0x30, can_dlc := 8,
                                     data := byte0 :: byte1 :: byte2 :: rest } ] ∧
      byte0 = convert_temp h.m_temp_left ∧
      byte1 = convert_temp h.m_temp_right ∧
      min byte0 byte1 ≤ byte2 ∧ byte2 ≤ max byte0 byte1 := by
  refine ⟨convert_temp h.m_temp_left, convert_temp h.m_temp_right,
    convert_temp ((h.m_temp_left + h.m_temp_right) >>> 1), [0xF0, h.m_fan_speed, 1, 0, 0],
    ?_, rfl, rfl, ?_⟩
  · rw [can_update_active h send_ok hact, build_frame_eq h hl hr]
    rfl
  · rw [Nat.shiftRight_eq_div_pow, convert_temp_eq, convert_temp_eq, convert_temp_eq]
    simp only [pow_one]
    constructor
    · split_ifs <;> omega
    · split_ifs <;> omega

/-- Witness of C15: left 16, right 29 on an active channel. -/
theorem average_byte_between_witness :
    ∃ byte0 byte1 byte2 rest,
      (can_update ⟨true, 16, 29, 0⟩ true).2 = [ { can_id := 0x30, can_dlc := 8,
                                                  data := byte0 :: byte1 :: byte2 :: rest } ] ∧
      byte0 = convert_temp 16 ∧
      byte1 = convert_temp 29 ∧
      min byte0 byte1 ≤ byte2 ∧ byte2 ≤ max byte0 byte1 :=
  average_byte_between ⟨true, 16, 29, 0⟩ true rfl (by decide) (by decide)

/-- C16: a setter call on an active channel attempts exactly one send, and a
failed send marks the channel inactive; on an inactive channel a setter call
attempts none, and no sequence of later setter calls attempts a send or makes
the channel active again; in both states the call stores its value. -/
theorem failed_send_stops_sending (h : HvacCanHelper) (c : HvacCanHelper.Call)
    (send_ok : Bool) :
    (h.m_active = true →
      (HvacCanHelper.call h c send_ok).2.length = 1 ∧
      (HvacCanHelper.call h c false).1.m_active = false ∧
      (HvacCanHelper.call h c true).1.m_active = true ∧
      ∀ later : List (HvacCanHelper.Call × Bool),
        (HvacCanHelper.run (HvacCanHelper.call h c false).1 later).2 = [] ∧
        (HvacCanHelper.run (HvacCanHelper.call h c false).1 later).1.m_active = false) ∧
    (h.m_active = false →
      (HvacCanHelper.call h c send_ok).2 = [] ∧
      (HvacCanHelper.call h c send_ok).1.m_active = false ∧
      ∀ later : List (HvacCanHelper.Call × Bool),
        (HvacCanHelper.run h later).2 = [] ∧
        (HvacCanHelper.run h later).1.m_active = false) ∧
    (∀ t, (HvacCanHelper.call h (HvacCanHelper.Call.set_left_temperature t) send_ok).1.m_temp_left
        = t) ∧
    (∀ t, (HvacCanHelper.call h (HvacCanHelper.Call.set_right_temperature t)
        send_ok).1.m_temp_right = t) ∧
    (∀ s, (HvacCanHelper.call h (HvacCanHelper.Call.set_fan_speed s) send_ok).1.m_fan_speed
        = scaled_fan_speed s) := by
  refine ⟨?_, ?_, call_stores h send_ok⟩
  · intro hact
    have hf := (call_active h c false hact).2
    exact ⟨(call_active h c send_ok hact).1, hf, (call_active h c true hact).2,
      fun later => run_inactive later _ hf⟩
  · intro hin
    exact ⟨(call_inactive h c send_ok hin).1, (call_inactive h c send_ok hin).2,
      fun later => run_inactive later h hin⟩

/-- Witness of C16: on a freshly constructed active helper the call
`set_left_temperature 22` fails to send; the calls that follow, whose sends
would succeed, hand nothing to `sendto`. -/
theorem failed_send_stops_sending_witness :
    (HvacCanHelper.run
        (HvacCanHelper.call (HvacCanHelper.init true)
          (HvacCanHelper.Call.set_left_temperature 22) false).1
        [(HvacCanHelper.Call.set_right_temperature 23, true),
         (HvacCanHelper.Call.set_fan_speed 50, true)]).2 = [] ∧
    (HvacCanHelper.call (HvacCanHelper.init false)
        (HvacCanHelper.Call.set_left_temperature 22) true).2 = [] :=
  ⟨(((failed_send_stops_sending (HvacCanHelper.init true)
        (HvacCanHelper.Call.set_left_temperature 22) false).1 rfl).2.2.2
      [(HvacCanHelper.Call.set_right_temperature 23, true),
       (HvacCanHelper.Call.set_fan_speed 50, true)]).1,
   ((failed_send_stops_sending (HvacCanHelper.init false)
        (HvacCanHelper.Call.set_left_temperature 22) true).2.1 rfl).1⟩

/-- C20, evaluated on the code: the table has 16 rows whose temperatures are
15, 16, ..., 30 in order, and the red channel never decreases as the index
rises; the blue channel rises once, from 175 in row 3 (temperature 18) to 186
in row 4 (temperature 19), and does not rise between any other two
neighbouring rows. -/
theorem degree_colours_gradient :
    degree_colours.length = 16 ∧
    degree_colours.map (fun c => c.temperature) =
      [15, 16, 17, 18, 19, 20, 21, 22, 23, 24, 25, 26, 27, 28, 29, 30] ∧
    (∀ i : Nat, i < 16 →
      (degree_colours.map (fun c => c.temperature))[i]? = some (15 + (i : Int))) ∧
    (∀ i : Nat, i < 15 →
      (HvacLedHelper.rgb_at (i : Int)).1 ≤ (HvacLedHelper.rgb_at ((i : Int) + 1)).1) ∧
    degree_colours.map (fun c => c.rgb.2.2) =
      [229, 204, 189, 175, 186, 146, 131, 116, 102, 87, 73, 58, 43, 29, 14, 5] ∧
    (HvacLedHelper.rgb_at 3).2.2 = 175 ∧
    (HvacLedHelper.rgb_at 4).2.2 = 186 ∧
    ¬ (∀ i : Nat, i < 15 →
      (HvacLedHelper.rgb_at ((i : Int) + 1)).2.2 ≤ (HvacLedHelper.rgb_at (i : Int)).2.2) ∧
    (∀ i : Nat, i < 15 → i ≠ 3 →
      (HvacLedHelper.rgb_at ((i : Int) + 1)).2.2 ≤ (HvacLedHelper.rgb_at (i : Int)).2.2) := by
  refine ⟨rfl, rfl, ?_, ?_, rfl, rfl, rfl, ?_, ?_⟩
  · intro i hi
    interval_cases i <;> rfl
  · intro i hi
    interval_cases i <;> decide
  · intro hall
    exact absurd (hall 3 (by decide)) (by decide)
  · intro i hi h3
    interval_cases i <;> first | decide | exact absurd rfl h3

/-- C19: for every update message `handleSubscribeResponse` invokes the
callback exactly once for each update that has an entry with a non-empty
path, in the order of the message, with the actuator-target Datapoint of the
entry when one is present and its value Datapoint otherwise; updates without
an entry or with an empty path are skipped, and a message without updates
invokes nothing. -/
theorem handleSubscribeResponse_dispatches_in_order (updates : List EntryUpdate) :
    KuksaClient.handleSubscribeResponse (some ⟨updates⟩) true =
      KuksaClient.spec_subscribe_calls updates ∧
    (KuksaClient.handleSubscribeResponse (some ⟨updates⟩) true).length =
      updates.countP (fun u =>
        match u.entry with
        | none => false
        | some entry => decide (entry.path ≠ "")) ∧
    KuksaClient.handleSubscribeResponse (some ⟨[]⟩) true = [] ∧
    (∀ (u : EntryUpdate) (rest : List EntryUpdate),
      u.entry = none →
        KuksaClient.handleSubscribeResponse (some ⟨u :: rest⟩) true =
          KuksaClient.handleSubscribeResponse (some ⟨rest⟩) true) ∧
    (∀ (u : EntryUpdate) (rest : List EntryUpdate) (entry : DataEntry),
      u.entry = some entry → entry.path = "" →
        KuksaClient.handleSubscribeResponse (some ⟨u :: rest⟩) true =
          KuksaClient.handleSubscribeResponse (some ⟨rest⟩) true) ∧
    (∀ (u : EntryUpdate) (rest : List EntryUpdate) (entry : DataEntry) (target : Datapoint),
      u.entry = some entry → entry.path ≠ "" → entry.actuator_target = some target →
        KuksaClient.handleSubscribeResponse (some ⟨u :: rest⟩) true =
          (entry.path, target) :: KuksaClient.handleSubscribeResponse (some ⟨rest⟩) true) ∧
    (∀ (u : EntryUpdate) (rest : List EntryUpdate) (entry : DataEntry) (value : Datapoint),
      u.entry = some entry → entry.path ≠ "" → entry.actuator_target = none →
        entry.value = some value →
        KuksaClient.handleSubscribeResponse (some ⟨u :: rest⟩) true =
          (entry.path, value) :: KuksaClient.handleSubscribeResponse (some ⟨rest⟩) true) := by
  have key : ∀ us : List EntryUpdate,
      KuksaClient.handleSubscribeResponse (some ⟨us⟩) true =
        KuksaClient.spec_subscribe_calls us := by
    intro us
    cases us with
    | nil => rfl
    | cons u rest =>
      unfold KuksaClient.handleSubscribeResponse
      simp only [List.length_cons, Nat.succ_ne_zero, false_or, Bool.true_eq_false, if_false]
      exact handleSubscribeResponse_loop_eq (u :: rest)
  refine ⟨key updates, ?_, rfl, ?_, ?_, ?_, ?_⟩
  · rw [key]
    unfold KuksaClient.spec_subscribe_calls
    induction updates with
    | nil => rfl
    | cons u rest ih =>
      rw [List.filterMap_cons, List.countP_cons]
      cases hu : u.entry with
      | none => simpa using ih
      | some entry =>
        by_cases hp : entry.path = ""
        · simpa [hp] using ih
        · cases ht : entry.actuator_target <;> simp [hp, ht, ih]
  · intro u rest hu
    rw [key, key]
    unfold KuksaClient.spec_subscribe_calls
    rw [List.filterMap_cons]
    simp only [hu]
  · intro u rest entry hu hp
    rw [key, key]
    unfold KuksaClient.spec_subscribe_calls
    rw [List.filterMap_cons]
    simp only [hu, hp, if_true]
  · intro u rest entry target hu hp ht
    rw [key, key]
    unfold KuksaClient.spec_subscribe_calls
    rw [List.filterMap_cons]
    simp only [hu, hp, ht, if_false]
  · intro u rest entry value hu hp ht hv
    rw [key, key]
    unfold KuksaClient.spec_subscribe_calls
    rw [List.filterMap_cons]
    simp only [hu, hp, ht, hv, if_false, Option.getD_some]

/-- Witness of C19: a message of four updates, the first without an entry,
the second with an empty path, the third with an actuator target and the
fourth with a value only. -/
theorem handleSubscribeResponse_dispatches_in_order_witness :
    KuksaClient.handleSubscribeResponse
        (some ⟨[ ⟨none, []⟩,
                 ⟨some ⟨"", some (Datapoint.kInt32 1), none⟩, []⟩,
                 ⟨some ⟨"Vehicle.Cabin.HVAC.IsAirConditioningActive",
                    some (Datapoint.kBool false), some (Datapoint.kBool true)⟩, []⟩,
                 ⟨some ⟨"Vehicle.Cabin.HVAC.Station.Row1.Driver.FanSpeed",
                    some (Datapoint.kUint32 40), none⟩, []⟩ ]⟩) true =
      [ ("Vehicle.Cabin.HVAC.IsAirConditioningActive", Datapoint.kBool true),
        ("Vehicle.Cabin.HVAC.Station.Row1.Driver.FanSpeed", Datapoint.kUint32 40) ] :=
  (handleSubscribeResponse_dispatches_in_order
    [ ⟨none, []⟩,
      ⟨some ⟨"", some (Datapoint.kInt32 1), none⟩, []⟩,
      ⟨some ⟨"Vehicle.Cabin.HVAC.IsAirConditioningActive",
         some (Datapoint.kBool false), some (Datapoint.kBool true)⟩, []⟩,
      ⟨some ⟨"Vehicle.Cabin.HVAC.Station.Row1.Driver.FanSpeed",
         some (Datapoint.kUint32 40), none⟩, []⟩ ]).1.trans (by decide)

/-- C13: `HandleSubscribeDone` registers no timer when the terminal status is
the cancellation status; for every other status, `OK` included, it registers
exactly one timer, with an interval of 100 ms, whose data holds the service
and a copy of the finished request with the same content. When that timer
fires on the live service, `Resubscribe` opens one stream with that copy. -/
theorem HandleSubscribeDone_schedules_resubscribe (this : Nat) (request : SubscribeRequest)
    (status : Status) :
    (status.error_code = StatusCode.CANCELLED →
      HvacService.HandleSubscribeDone this request status = []) ∧
    (status.error_code ≠ StatusCode.CANCELLED →
      HvacService.HandleSubscribeDone this request status =
        [{ interval := 100, data := some { self := some this, request := some request } }] ∧
      (HvacService.HandleSubscribeDone this request status).length = 1 ∧
      ∀ timer ∈ HvacService.HandleSubscribeDone this request status,
        HvacService.resubscribe_cb ⟨this, false, true⟩ timer.data =
          CallbackResult.resubscribed [request]) ∧
    (∀ message : String,
      HvacService.HandleSubscribeDone this request ⟨StatusCode.OK, message⟩ =
        [{ interval := 100, data := some { self := some this, request := some request } }]) ∧
    HvacService.resubscribe_cb ⟨this, false, true⟩
        (some { self := some this, request := some request }) =
      CallbackResult.resubscribed [request] ∧
    HvacService.Resubscribe true (some request) = [request] := by
  have hcb : HvacService.resubscribe_cb ⟨this, false, true⟩
      (some { self := some this, request := some request }) =
        CallbackResult.resubscribed [request] := rfl
  refine ⟨?_, ?_, ?_, hcb, rfl⟩
  · intro hc
    unfold HvacService.HandleSubscribeDone
    rw [if_pos hc]
  · intro hc
    have e : HvacService.HandleSubscribeDone this request status =
        [{ interval := 100, data := some { self := some this, request := some request } }] := by
      unfold HvacService.HandleSubscribeDone
      rw [if_neg hc]
    rw [e]
    refine ⟨rfl, rfl, ?_⟩
    intro timer ht
    rw [List.mem_singleton] at ht
    rw [ht]
    exact hcb
  · intro message
    rfl

/-- Witness of C13: a stream of two entries that ends cancelled, and the same
stream ending with another status (code 14). -/
theorem HandleSubscribeDone_schedules_resubscribe_witness :
    HvacService.HandleSubscribeDone 1
        ⟨[ ⟨"Vehicle.Cabin.HVAC.IsAirConditioningActive",
             [Field.FIELD_PATH, Field.FIELD_ACTUATOR_TARGET]⟩,
           ⟨"Vehicle.Cabin.HVAC.Station.Row1.Driver.FanSpeed",
             [Field.FIELD_PATH, Field.FIELD_ACTUATOR_TARGET]⟩ ]⟩
        ⟨StatusCode.CANCELLED, "cancelled"⟩ = [] ∧
    (HvacService.HandleSubscribeDone 1
        ⟨[ ⟨"Vehicle.Cabin.HVAC.IsAirConditioningActive",
             [Field.FIELD_PATH, Field.FIELD_ACTUATOR_TARGET]⟩,
           ⟨"Vehicle.Cabin.HVAC.Station.Row1.Driver.FanSpeed",
             [Field.FIELD_PATH, Field.FIELD_ACTUATOR_TARGET]⟩ ]⟩
        ⟨StatusCode.other 14, "unavailable"⟩).length = 1 :=
  ⟨(HandleSubscribeDone_schedules_resubscribe 1 _ ⟨StatusCode.CANCELLED, "cancelled"⟩).1 rfl,
   ((HandleSubscribeDone_schedules_resubscribe 1 _ ⟨StatusCode.other 14, "unavailable"⟩).2.1
      (by decide)).2.1⟩

/-- C12: for every finite sequence of updates dispatched from the initial
state, and for each of the four flags, the number of `Set` requests sent for
the flag equals the number of positions, among the boolean updates for that
flag, at which the value differs from its predecessor (the predecessor of the
first being `false`). Updates for other paths, those for the other three
flags included, are not among these positions and do not change the count; a
run of repeated identical values has no such position. -/
theorem flag_set_count_eq_transitions (can_active led_valid : Bool) (events : List Event) :
    HvacService.set_count "Vehicle.Cabin.HVAC.IsAirConditioningActive"
        (HvacService.dispatch_all (HvacService.init can_active led_valid) events).2 =
      HvacService.transitions false
        (HvacService.flag_values "Vehicle.Cabin.HVAC.IsAirConditioningActive" events) ∧
    HvacService.set_count "Vehicle.Cabin.HVAC.IsFrontDefrosterActive"
        (HvacService.dispatch_all (HvacService.init can_active led_valid) events).2 =
      HvacService.transitions false
        (HvacService.flag_values "Vehicle.Cabin.HVAC.IsFrontDefrosterActive" events) ∧
    HvacService.set_count "Vehicle.Cabin.HVAC.IsRearDefrosterActive"
        (HvacService.dispatch_all (HvacService.init can_active led_valid) events).2 =
      HvacService.transitions false
        (HvacService.flag_values "Vehicle.Cabin.HVAC.IsRearDefrosterActive" events) ∧
    HvacService.set_count "Vehicle.Cabin.HVAC.IsRecirculationActive"
        (HvacService.dispatch_all (HvacService.init can_active led_valid) events).2 =
      HvacService.transitions false
        (HvacService.flag_values "Vehicle.Cabin.HVAC.IsRecirculationActive" events) ∧
    (∀ (path : String) (io : IoEnv) (values : List Bool),
      HvacService.flag_values path (values.map (fun v => ⟨io, path, Datapoint.kBool v⟩)) =
        values) ∧
    (∀ (path : String) (before after : List Event) (e : Event),
      e.path ≠ path →
        HvacService.flag_values path (before ++ e :: after) =
          HvacService.flag_values path (before ++ after)) ∧
    (∀ (v : Bool) (n : Nat), HvacService.transitions v (List.replicate n v) = 0) := by
  refine ⟨?_, ?_, ?_, ?_, ?_, ?_, ?_⟩
  · exact set_count_eq_transitions (fun s => s.m_IsAirConditioningActive) _
      HandleSignalChange_ac_other
      (fun s io v => by
        rw [(HandleSignalChange_flag s io v).1]
        exact (flag_setter_count s v).1)
      (fun s io dp h => (HandleSignalChange_flag_drop s io dp h).1)
      events (HvacService.init can_active led_valid)
  · exact set_count_eq_transitions (fun s => s.m_IsFrontDefrosterActive) _
      HandleSignalChange_front_other
      (fun s io v => by
        rw [(HandleSignalChange_flag s io v).2.1]
        exact (flag_setter_count s v).2.1)
      (fun s io dp h => (HandleSignalChange_flag_drop s io dp h).2.1)
      events (HvacService.init can_active led_valid)
  · exact set_count_eq_transitions (fun s => s.m_IsRearDefrosterActive) _
      HandleSignalChange_rear_other
      (fun s io v => by
        rw [(HandleSignalChange_flag s io v).2.2.1]
        exact (flag_setter_count s v).2.2.1)
      (fun s io dp h => (HandleSignalChange_flag_drop s io dp h).2.2.1)
      events (HvacService.init can_active led_valid)
  · exact set_count_eq_transitions (fun s => s.m_IsRecirculationActive) _
      HandleSignalChange_recirculation_other
      (fun s io v => by
        rw [(HandleSignalChange_flag s io v).2.2.2]
        exact (flag_setter_count s v).2.2.2)
      (fun s io dp h => (HandleSignalChange_flag_drop s io dp h).2.2.2)
      events (HvacService.init can_active led_valid)
  · intro path io values
    unfold HvacService.flag_values
    induction values with
    | nil => rfl
    | cons v rest ih =>
      rw [List.map_cons, List.filterMap_cons, ih]
      simp [HvacService.flag_value]
  · intro path before after e he
    unfold HvacService.flag_values
    have hf : HvacService.flag_value path e = none := by
      unfold HvacService.flag_value
      rw [if_neg he]
    rw [List.filterMap_append, List.filterMap_append, List.filterMap_cons, hf]
  · intro v n
    induction n with
    | zero => rfl
    | succ k ih =>
      rw [List.replicate_succ]
      unfold HvacService.transitions
      rw [ih]
      simp

/-- Witness of C12: the air-conditioning flag receives true, true, false and
true, with a front-defroster update and a driver temperature in between;
three `Set` requests are sent for it. -/
theorem flag_set_count_eq_transitions_witness :
    HvacService.set_count "Vehicle.Cabin.HVAC.IsAirConditioningActive"
        (HvacService.dispatch_all (HvacService.init true true)
          [ ⟨⟨true, ⟨true, true, true⟩⟩, "Vehicle.Cabin.HVAC.IsAirConditioningActive",
              Datapoint.kBool true⟩,
            ⟨⟨true, ⟨true, true, true⟩⟩, "Vehicle.Cabin.HVAC.IsFrontDefrosterActive",
              Datapoint.kBool true⟩,
            ⟨⟨true, ⟨true, true, true⟩⟩, "Vehicle.Cabin.HVAC.IsAirConditioningActive",
              Datapoint.kBool true⟩,
            ⟨⟨true, ⟨true, true, true⟩⟩, "Vehicle.Cabin.HVAC.Station.Row1.Driver.Temperature",
              Datapoint.kInt32 22⟩,
            ⟨⟨true, ⟨true, true, true⟩⟩, "Vehicle.Cabin.HVAC.IsAirConditioningActive",
              Datapoint.kBool false⟩,
            ⟨⟨true, ⟨true, true, true⟩⟩, "Vehicle.Cabin.HVAC.IsAirConditioningActive",
              Datapoint.kBool true⟩ ]).2 = 3 :=
  (flag_set_count_eq_transitions true true _).1.trans (by decide)

/-- C21: the two fan-speed paths drive one fan byte. After any sequence of
events that ends with an accepted fan-speed update (`uint32` value `u` up to
100) on either path, the fan byte stored by the CAN helper, which is byte 4
of the frame, is the scaled value of `u`, whatever was stored before and
whichever path carried earlier updates; on an active channel the frame sent
for this update carries it. The state after the update is the same for both
paths, which differ only in the path of the `Set` request. -/
theorem fan_speed_paths_share_one_byte (s : HvacService) (before : List Event) (io : IoEnv)
    (u : Nat) (hu : u ≤ 100) :
    scaled_fan_speed u = (u * 255 * 2 + 100) / (100 * 2) ∧
    (HvacService.HandleSignalChange s io "Vehicle.Cabin.HVAC.Station.Row1.Driver.FanSpeed"
        (Datapoint.kUint32 u)).1 =
      (HvacService.HandleSignalChange s io "Vehicle.Cabin.HVAC.Station.Row1.Passenger.FanSpeed"
        (Datapoint.kUint32 u)).1 ∧
    (∀ path : String,
      path = "Vehicle.Cabin.HVAC.Station.Row1.Driver.FanSpeed" ∨
        path = "Vehicle.Cabin.HVAC.Station.Row1.Passenger.FanSpeed" →
      (HvacService.dispatch_all s
          (before ++ [⟨io, path, Datapoint.kUint32 u⟩])).1.m_can_helper.m_fan_speed =
        scaled_fan_speed u ∧
      (build_frame (HvacService.dispatch_all s
          (before ++ [⟨io, path, Datapoint.kUint32 u⟩])).1.m_can_helper).data[4]? =
        some (scaled_fan_speed u) ∧
      ((HvacService.dispatch_all s before).1.m_can_helper.m_active = true →
        ∃ (frame : can_frame) (rest : List Effect),
          (HvacService.HandleSignalChange (HvacService.dispatch_all s before).1 io path
              (Datapoint.kUint32 u)).2 = Effect.can_send frame :: rest ∧
          frame.data[4]? = some (scaled_fan_speed u))) := by
  refine ⟨scaled_fan_speed_eq u hu, ?_, ?_⟩
  · rw [HandleSignalChange_driver_fan_speed s io u hu,
      HandleSignalChange_passenger_fan_speed s io u hu]
    rfl
  · intro path hpath
    have hstate : ∀ s' : HvacService,
        (HvacService.HandleSignalChange s' io path (Datapoint.kUint32 u)).1 =
          (HvacService.set_fan_speed s' io u).1 ∧
        ∃ request, (HvacService.HandleSignalChange s' io path (Datapoint.kUint32 u)).2 =
          (HvacService.set_fan_speed s' io u).2 ++ [Effect.broker_set request] := by
      intro s'
      rcases hpath with h | h
      · rw [h, HandleSignalChange_driver_fan_speed s' io u hu]
        exact ⟨rfl, _, rfl⟩
      · rw [h, HandleSignalChange_passenger_fan_speed s' io u hu]
        exact ⟨rfl, _, rfl⟩
    have hfinal : (HvacService.dispatch_all s
        (before ++ [⟨io, path, Datapoint.kUint32 u⟩])).1 =
          (HvacService.set_fan_speed (HvacService.dispatch_all s before).1 io u).1 := by
      rw [dispatch_all_snoc before ⟨io, path, Datapoint.kUint32 u⟩ s]
      exact (hstate _).1
    have hbyte := (service_set_fan_speed (HvacService.dispatch_all s before).1 io u).1
    refine ⟨?_, ?_, ?_⟩
    · rw [hfinal]
      exact hbyte
    · rw [hfinal]
      unfold build_frame
      simp only [List.getElem?_cons_succ, List.getElem?_cons_zero]
      exact congrArg some hbyte
    · intro hact
      obtain ⟨request, hreq⟩ := (hstate (HvacService.dispatch_all s before).1).2
      refine ⟨build_frame
        { (HvacService.dispatch_all s before).1.m_can_helper with
          m_fan_speed := scaled_fan_speed u },
        [Effect.broker_set request], ?_, ?_⟩
      · rw [hreq, (service_set_fan_speed (HvacService.dispatch_all s before).1 io u).2.2.2 hact]
        rfl
      · rfl

/-- Witness of C21: on a fresh service with an active channel the driver path
carries 30, the passenger path 80 and the driver path 50; the fan byte is
128, the scaled value of 50. -/
theorem fan_speed_paths_share_one_byte_witness :
    (HvacService.dispatch_all (HvacService.init true true)
        ([ ⟨⟨true, ⟨true, true, true⟩⟩, "Vehicle.Cabin.HVAC.Station.Row1.Driver.FanSpeed",
              Datapoint.kUint32 30⟩,
           ⟨⟨true, ⟨true, true, true⟩⟩, "Vehicle.Cabin.HVAC.Station.Row1.Passenger.FanSpeed",
              Datapoint.kUint32 80⟩ ] ++
         [⟨⟨true, ⟨true, true, true⟩⟩, "Vehicle.Cabin.HVAC.Station.Row1.Driver.FanSpeed",
              Datapoint.kUint32 50⟩])).1.m_can_helper.m_fan_speed = 128 :=
  (((fan_speed_paths_share_one_byte (HvacService.init true true)
      [ ⟨⟨true, ⟨true, true, true⟩⟩, "Vehicle.Cabin.HVAC.Station.Row1.Driver.FanSpeed",
           Datapoint.kUint32 30⟩,
        ⟨⟨true, ⟨true, true, true⟩⟩, "Vehicle.Cabin.HVAC.Station.Row1.Passenger.FanSpeed",
           Datapoint.kUint32 80⟩ ]
      ⟨true, ⟨true, true, true⟩⟩ 50 (by decide)).2.2
      "Vehicle.Cabin.HVAC.Station.Row1.Driver.FanSpeed" (Or.inl rfl)).1).trans
    ((fan_speed_paths_share_one_byte (HvacService.init true true) []
      ⟨true, ⟨true, true, true⟩⟩ 50 (by decide)).1.trans (by decide))

/-- C17, counterexample: left 15, right 30, a valid configuration, and a red
file that opens but does not store the inserted text. `led_update` does not
stop at this sink: it goes on to write green and blue, the configuration
stays valid, and the next setter call writes to all three files again. -/
theorem led_update_goes_on_after_failed_write :
    HvacLedHelper.led_update_io ⟨true, 15, 30⟩ ⟨⟨true, false⟩, ⟨true, true⟩, ⟨true, true⟩⟩ =
      (⟨true, 15, 30⟩,
        [ ⟨LedChannel.red, 100, false⟩, ⟨LedChannel.green, 0, true⟩,
          ⟨LedChannel.blue, 117, true⟩ ]) ∧
    ¬ ((HvacLedHelper.led_update_io ⟨true, 15, 30⟩
          ⟨⟨true, false⟩, ⟨true, true⟩, ⟨true, true⟩⟩).1.m_config_valid = false) ∧
    ¬ ((HvacLedHelper.led_update_io ⟨true, 15, 30⟩
          ⟨⟨true, false⟩, ⟨true, true⟩, ⟨true, true⟩⟩).2.drop 1 = []) ∧
    (HvacLedHelper.run_io
        (HvacLedHelper.led_update_io ⟨true, 15, 30⟩
          ⟨⟨true, false⟩, ⟨true, true⟩, ⟨true, true⟩⟩).1
        [(HvacLedHelper.Call.set_left_temperature 30,
          ⟨⟨true, true⟩, ⟨true, true⟩, ⟨true, true⟩⟩)]).2 =
      [ ⟨LedChannel.red, 201, true⟩, ⟨LedChannel.green, 0, true⟩,
        ⟨LedChannel.blue, 5, true⟩ ] := by
  decide

/-- C17, amended: with a valid configuration `led_update` handles red, then
green, then blue, and stops at the first file that cannot be opened: the
configuration becomes invalid, the files opened before have received their
insertion and keep what they stored, the failing file and the files after it
receive nothing, and no later setter call makes an insertion. The outcome of
an insertion is not tested: when all three files open, three insertions are
made and the configuration stays valid whether or not they were stored. -/
theorem led_update_stops_at_unopened_file (h : HvacLedHelper) (sinks : LedSinks) (io : LedIo)
    (hv : h.m_config_valid = true) :
    (io.red.is_open = false →
      (HvacLedHelper.led_update_io h io).2 = [] ∧
      (HvacLedHelper.led_update_io h io).1.m_config_valid = false ∧
      ∀ later : List (HvacLedHelper.Call × LedIo),
        (HvacLedHelper.run_io (HvacLedHelper.led_update_io h io).1 later).2 = []) ∧
    (io.red.is_open = true → io.green.is_open = false →
      (HvacLedHelper.led_update_io h io).2 =
        [⟨LedChannel.red, (HvacLedHelper.led_values h).1, io.red.stored⟩] ∧
      (HvacLedHelper.led_update_io h io).1.m_config_valid = false ∧
      (io.red.stored = true →
        HvacLedHelper.write_sinks sinks
            (HvacLedHelper.stored_writes (HvacLedHelper.led_update_io h io).2) =
          { red := (HvacLedHelper.led_values h).1, green := sinks.green,
            blue := sinks.blue }) ∧
      ∀ later : List (HvacLedHelper.Call × LedIo),
        (HvacLedHelper.run_io (HvacLedHelper.led_update_io h io).1 later).2 = []) ∧
    (io.red.is_open = true → io.green.is_open = true → io.blue.is_open = false →
      (HvacLedHelper.led_update_io h io).2 =
        [ ⟨LedChannel.red, (HvacLedHelper.led_values h).1, io.red.stored⟩,
          ⟨LedChannel.green, (HvacLedHelper.led_values h).2.1, io.green.stored⟩ ] ∧
      (HvacLedHelper.led_update_io h io).1.m_config_valid = false ∧
      (io.red.stored = true → io.green.stored = true →
        HvacLedHelper.write_sinks sinks
            (HvacLedHelper.stored_writes (HvacLedHelper.led_update_io h io).2) =
          { red := (HvacLedHelper.led_values h).1, green := (HvacLedHelper.led_values h).2.1,
            blue := sinks.blue }) ∧
      ∀ later : List (HvacLedHelper.Call × LedIo),
        (HvacLedHelper.run_io (HvacLedHelper.led_update_io h io).1 later).2 = []) ∧
    (io.red.is_open = true → io.green.is_open = true → io.blue.is_open = true →
      (HvacLedHelper.led_update_io h io).2 =
        [ ⟨LedChannel.red, (HvacLedHelper.led_values h).1, io.red.stored⟩,
          ⟨LedChannel.green, (HvacLedHelper.led_values h).2.1, io.green.stored⟩,
          ⟨LedChannel.blue, (HvacLedHelper.led_values h).2.2, io.blue.stored⟩ ] ∧
      (HvacLedHelper.led_update_io h io).1.m_config_valid = true) := by
  refine ⟨?_, ?_, ?_, ?_⟩
  · intro hr
    have e : HvacLedHelper.led_update_io h io = ({ h with m_config_valid := false }, []) := by
      simp [HvacLedHelper.led_update_io, hv, hr]
    rw [e]
    exact ⟨rfl, rfl, fun later => (led_run_io_invalid later _ rfl).1⟩
  · intro hr hg
    have e : HvacLedHelper.led_update_io h io =
        ({ h with m_config_valid := false },
          [⟨LedChannel.red, (HvacLedHelper.led_values h).1, io.red.stored⟩]) := by
      simp [HvacLedHelper.led_update_io, hv, hr, hg]
    rw [e]
    refine ⟨rfl, rfl, ?_, fun later => (led_run_io_invalid later _ rfl).1⟩
    intro hs
    simp [HvacLedHelper.stored_writes, HvacLedHelper.write_sinks, hs]
  · intro hr hg hb
    have e : HvacLedHelper.led_update_io h io =
        ({ h with m_config_valid := false },
          [ ⟨LedChannel.red, (HvacLedHelper.led_values h).1, io.red.stored⟩,
            ⟨LedChannel.green, (HvacLedHelper.led_values h).2.1, io.green.stored⟩ ]) := by
      simp [HvacLedHelper.led_update_io, hv, hr, hg, hb]
    rw [e]
    refine ⟨rfl, rfl, ?_, fun later => (led_run_io_invalid later _ rfl).1⟩
    intro hs1 hs2
    simp [HvacLedHelper.stored_writes, HvacLedHelper.write_sinks, hs1, hs2]
  · intro hr hg hb
    have e : HvacLedHelper.led_update_io h io =
        (h, [ ⟨LedChannel.red, (HvacLedHelper.led_values h).1, io.red.stored⟩,
              ⟨LedChannel.green, (HvacLedHelper.led_values h).2.1, io.green.stored⟩,
              ⟨LedChannel.blue, (HvacLedHelper.led_values h).2.2, io.blue.stored⟩ ]) := by
      simp [HvacLedHelper.led_update_io, hv, hr, hg, hb]
    rw [e]
    exact ⟨rfl, hv⟩

/-- Witness of the amended C17: left 15 and right 30, the red file stores its
text and the green file cannot be opened; red holds the new value 100, green
and blue keep 7 and 9, and a later call with all files writable makes no
insertion. -/
theorem led_update_stops_at_unopened_file_witness :
    HvacLedHelper.write_sinks ⟨5, 7, 9⟩
        (HvacLedHelper.stored_writes
          (HvacLedHelper.led_update_io ⟨true, 15, 30⟩
            ⟨⟨true, true⟩, ⟨false, true⟩, ⟨true, true⟩⟩).2) = ⟨100, 7, 9⟩ ∧
    (HvacLedHelper.run_io
        (HvacLedHelper.led_update_io ⟨true, 15, 30⟩
          ⟨⟨true, true⟩, ⟨false, true⟩, ⟨true, true⟩⟩).1
        [(HvacLedHelper.Call.set_left_temperature 20,
          ⟨⟨true, true⟩, ⟨true, true⟩, ⟨true, true⟩⟩)]).2 = [] :=
  ⟨((led_update_stops_at_unopened_file ⟨true, 15, 30⟩ ⟨5, 7, 9⟩
        ⟨⟨true, true⟩, ⟨false, true⟩, ⟨true, true⟩⟩ rfl).2.1 rfl rfl).2.2.1 rfl,
   ((led_update_stops_at_unopened_file ⟨true, 15, 30⟩ ⟨5, 7, 9⟩
        ⟨⟨true, true⟩, ⟨false, true⟩, ⟨true, true⟩⟩ rfl).2.1 rfl rfl).2.2.2
     [(HvacLedHelper.Call.set_left_temperature 20,
       ⟨⟨true, true⟩, ⟨true, true⟩, ⟨true, true⟩⟩)]⟩

end Hvac
